import Mathlib

/-!
# Verification of the Fizz server-side streaming HTML renderer

Shallow embedding of the server rendering core found in
`packages/react-dom-bindings/src/server/ReactDOMServerFormatConfig.js` and
`packages/react-dom-bindings/src/server/ReactDOMFloatServer.js`.

Modelling conventions:
* chunks are modelled by an inductive `Chunk`: raw byte strings become
  `Chunk.str`, and each whole-tag serialization helper (`pushLinkImpl`,
  `pushScriptImpl`, `pushTitleImpl`, `pushSelfClosing`) is modelled as
  emitting one tag chunk carrying the props it would serialize — no claim
  under consideration depends on the byte-level attribute serialization of
  those helpers, only on which tags are emitted and in which order;
* the mutable `Map`/`Set` fields of `Resources` become insertion-ordered
  association lists / duplicate-free string lists; record identity in the
  JS heap is identity of the URL key in the owning map, which is exact
  because every record is created at most once per URL per map;
* a flag named `__DEV__` is `false` (production semantics): dev-only
  validation calls are omitted, matching the production build;
* the feature flags `enableFloat` and `enableFizzExternalRuntime` are `true`
  in this build of the renderer, so the corresponding branches are inlined;
* field names ending in the substring "Prefix" in the source are shortened
  to "...Pre" (`placeholderPre`, `segmentPre`, `boundaryPre`, `idPre`).
-/

namespace ReactFizz

/-- The props bag of an element / resource record.  Only the fields read or
written by the code under verification are carried; all other props are
irrelevant to every claim here. `rAs` models the JS prop `as`,
`dataPrecedence` the JS prop `data-precedence`. -/
structure Props where
  href : Option String := none
  rel : Option String := none
  rAs : Option String := none
  crossOrigin : Option String := none
  integrity : Option String := none
  media : Option String := none
  hrefLang : Option String := none
  referrerPolicy : Option String := none
  title : Option String := none
  precedence : Option String := none
  dataPrecedence : Option String := none
  src : Option String := none
  async : Bool := false
  onLoad : Bool := false
  onError : Bool := false
deriving Repr, DecidableEq

/-- The five streaming instruction kinds whose JS helper function bodies
are inlined one-shot (`completeSegment`, `completeBoundary`,
`completeContainer`, `clientRenderBoundary`, `completeBoundaryWithStyles`
from the fizz instruction set). -/
inductive InstrKind where
  | completeSegment
  | completeBoundary
  | completeContainer
  | clientRender
  | styleInsertion
deriving Repr, DecidableEq

/-- A chunk written to the destination.  Raw string constants keep their
bytes; whole-tag serializations (`pushLinkImpl` and friends) are modelled as
single tag chunks carrying the serialized props; the inlined instruction
helper bodies and the style-dependency array entries are modelled as
dedicated chunks carrying what identifies them. -/
inductive Chunk where
  | str (s : String)
  | linkTag (props : Props)
  | selfClosing (tag : String) (props : Props)
  | scriptTag (props : Props)
  | titleTag (props : Props)
  | fnBody (kind : InstrKind)
  | styleDepEntry (href : String) (hrefOnly : Bool)
deriving Repr, DecidableEq

/-- Concatenated bytes of a chunk list, defined only when every chunk is a
raw string chunk (as in the contentless-document scenario of the preamble /
postamble round trip). -/
def joinStrChunks : List Chunk → Option String
  | [] => some ""
  | Chunk.str s :: rest => (joinStrChunks rest).map (fun r => s ++ r)
  | _ => none

/-- `SuspenseBoundaryID` is `null | PrecomputedChunk` in the source and the
comparison with `responseState.containerBoundaryID` is JS reference
equality; the container chunk is the unique chunk allocated in
`createResponseState`, while `assignSuspenseBoundaryID` always allocates a
fresh chunk, so reference equality is equivalent to asking which allocation
site produced the chunk. -/
inductive BoundaryIdChunk where
  | container (text : String)
  | assigned (text : String)
deriving Repr, DecidableEq

def BoundaryIdChunk.text : BoundaryIdChunk → String
  | .container t => t
  | .assigned t => t

abbrev SuspenseBoundaryID := Option BoundaryIdChunk

/-- `DocumentStructureTag` bit flags. -/
def NONE : Nat := 0
def HTML : Nat := 1
def HEAD : Nat := 2
def BODY : Nat := 4
def HTML_HEAD_OR_BODY : Nat := 7

/-- Streaming formats. -/
def ScriptStreamingFormat : Nat := 0
def DataStreamingFormat : Nat := 1

/-- Insertion modes (constants as in the source). -/
def ROOT_HTML_MODE : Nat := 0
def HTML_HTML_MODE : Nat := 1
def HTML_MODE : Nat := 2
def SVG_MODE : Nat := 3
def MATHML_MODE : Nat := 4
def HTML_TABLE_MODE : Nat := 5
def HTML_TABLE_BODY_MODE : Nat := 6
def HTML_TABLE_ROW_MODE : Nat := 7
def HTML_COLGROUP_MODE : Nat := 8

structure FormatContext where
  insertionMode : Nat
  selectedValue : Option (List String) := none
  noscriptTagInScope : Bool := false
deriving Repr, DecidableEq

/-- Per-response state (the subset of `ResponseState` fields read or written
by the operations under verification). -/
structure ResponseState where
  bootstrapChunks : List Chunk := []
  fallbackBootstrapChunks : Option (List Chunk) := none
  htmlChunks : List Chunk := []
  headChunks : List Chunk := []
  requiresEmbedding : Bool := false
  rendered : Nat := NONE
  flushed : Nat := NONE
  charsetChunks : List Chunk := []
  hoistableChunks : List Chunk := []
  placeholderPre : String := "P:"
  segmentPre : String := "S:"
  boundaryPre : String := "B:"
  containerBoundaryID : Option String := none
  idPre : String := ""
  nextSuspenseID : Nat := 0
  streamingFormat : Nat := ScriptStreamingFormat
  startInlineScript : String := "<script>"
  sentCompleteSegmentFunction : Bool := false
  sentCompleteBoundaryFunction : Bool := false
  sentCompleteContainerFunction : Bool := false
  sentClientRenderFunction : Bool := false
  sentStyleInsertionFunction : Bool := false
  externalRuntimeSrc : Option String := none
  externalRuntimeIntegrity : Option String := none
deriving Repr, DecidableEq

/-- JS reference comparison `boundaryID === responseState.containerBoundaryID`. -/
def isContainerBoundary (rs : ResponseState) (id : SuspenseBoundaryID) : Bool :=
  match id, rs.containerBoundaryID with
  | none, none => true
  | some (.container t), some t2 => t = t2
  | _, _ => false

/-- Modelled from the spec: `escapeTextForBrowser`
(`react-dom-bindings/src/server/escapeTextForBrowser.js` is not under
`src/`); standard HTML text escaping of the characters needing entities. -/
def escapeTextForBrowser (s : String) : String :=
  String.mk (s.toList.flatMap (fun c =>
    if c = '&' then "&amp;".toList
    else if c = '<' then "&lt;".toList
    else if c = '>' then "&gt;".toList
    else if c = '"' then "&quot;".toList
    else if c = Char.ofNat 39 then "&#x27;".toList
    else [c]))

def textSeparator : Chunk := Chunk.str "<!-- -->"

/-- `pushTextInstance`: empty text pushes nothing and keeps the embedded
flag; non-empty text pushes a separator first when `textEmbedded`, then the
escaped text, and reports `true`. -/
def pushTextInstance (target : List Chunk) (text : String)
    (_responseState : ResponseState) (textEmbedded : Bool) :
    List Chunk × Bool :=
  if text = "" then
    (target, textEmbedded)
  else
    let target := if textEmbedded then target ++ [textSeparator] else target
    (target ++ [Chunk.str (escapeTextForBrowser text)], true)

def endTag1 : Chunk := Chunk.str "</"
def endTag2 : Chunk := Chunk.str ">"
def startChunkForTag (tag : String) : Chunk := Chunk.str ("<" ++ tag)
def endOfStartTag : Chunk := Chunk.str ">"
def endOfStartTagSelfClosing : Chunk := Chunk.str "/>"
def DOCTYPE : Chunk := Chunk.str "<!DOCTYPE html>"

/-- The element types of the omitted-close-tags arm of `pushEndInstance`
(with `enableFloat` also `title` and `script` fall through into it). -/
def omittedCloseTags : List String :=
  ["area", "base", "br", "col", "embed", "hr", "img", "input", "keygen",
   "link", "meta", "param", "source", "track", "wbr"]

/-- `pushEndInstance` (with `enableFloat = true`): appends the closing tag
chunks unless the type is in an omitted arm of the switch. -/
def pushEndInstance (target : List Chunk) (type : String) (_props : Props)
    (formatContext : FormatContext) : List Chunk :=
  if type = "title" ∨ type = "script" then target
  else if type ∈ omittedCloseTags then target
  else if type = "body" ∧ formatContext.insertionMode ≤ HTML_HTML_MODE then target
  else if type = "html" ∧ formatContext.insertionMode = ROOT_HTML_MODE then target
  else target ++ [endTag1, Chunk.str type, endTag2]

/-! ## `escapeBootstrapScriptContent`
The source applies `('' + scriptText).replace(scriptRegex, scriptReplacer)`
with `scriptRegex = /(<\/|<)(s)(cript)/gi`: a left-to-right, non-overlapping
global scan; the replacer keeps the `(<\/|<)` prefix and the `(cript)`
suffix verbatim and rewrites the captured letter s to the JS escape
`s` (`S` for an uppercase S). -/

/-- The letter `s` in either case (capture group 2 of the regex with `i`). -/
def isSChar (c : Char) : Bool := c = 's' || c = 'S'

/-- Do five characters spell `cript` case-insensitively (capture group 3)? -/
def isCriptChars (c r i p t : Char) : Bool :=
  (c = 'c' || c = 'C') && (r = 'r' || r = 'R') && (i = 'i' || i = 'I') &&
  (p = 'p' || p = 'P') && (t = 't' || t = 'T')

/-- `scriptReplacer`'s treatment of the captured letter s: the six
characters of the literal JS escape. -/
def replacedS (s : Char) : List Char :=
  if s = 's' then ['\\', 'u', '0', '0', '7', '3']
  else ['\\', 'u', '0', '0', '5', '3']

/-- The regex match attempted at one scan position: `(<\/|<)(s)(cript)` with
the `i` flag, alternatives tried in order.  On success, returns the
replacement text produced by `scriptReplacer` (prefix verbatim, captured s
rewritten, `cript` suffix verbatim) together with the input remaining after
the match. -/
def matchScriptAt : List Char → Option (List Char × List Char)
  | '<' :: '/' :: s :: c :: r :: i :: p :: t :: rest =>
    if isSChar s && isCriptChars c r i p t then
      some ('<' :: '/' :: (replacedS s ++ [c, r, i, p, t]), rest)
    else none
  | '<' :: s :: c :: r :: i :: p :: t :: rest =>
    if isSChar s && isCriptChars c r i p t then
      some ('<' :: (replacedS s ++ [c, r, i, p, t]), rest)
    else none
  | _ => none

theorem matchScriptAt_some_length {l out rest : List Char}
    (h : matchScriptAt l = some (out, rest)) : rest.length + 7 ≤ l.length := by
  unfold matchScriptAt at h
  split at h <;> first
    | (split at h <;> simp_all)
    | simp_all

/-- `escapeBootstrapScriptContent` on the character list of the script text:
JS `String.replace` with a global regex scans left to right without
overlaps, emitting the replacement and continuing after each match,
and advancing one character when no match starts at the position. -/
def escapeBootstrapScriptContent (l : List Char) : List Char :=
  match h : matchScriptAt l with
  | some (out, rest) => out ++ escapeBootstrapScriptContent rest
  | none =>
    match l with
    | [] => []
    | x :: rest => x :: escapeBootstrapScriptContent rest
termination_by l.length
decreasing_by
  · have := matchScriptAt_some_length h
    omega
  · simp_arith

/-- Case-insensitive letter-pattern check: does the list start with the
given (lowercase, uppercase) pattern pairs? -/
def charsStartCI : List (Char × Char) → List Char → Bool
  | [], _ => true
  | _ :: _, [] => false
  | pat :: pats, x :: xs => (x = pat.1 || x = pat.2) && charsStartCI pats xs

def scriptPairs : List (Char × Char) :=
  [('s', 'S'), ('c', 'C'), ('r', 'R'), ('i', 'I'), ('p', 'P'), ('t', 'T')]

/-- Does the list begin with `/` followed by `script` in any letter casing? -/
def slashScriptAt : List Char → Bool
  | b :: rest2 => if b = '/' then charsStartCI scriptPairs rest2 else false
  | [] => false

/-- Does the list begin with `<script` or `</script` in any letter casing? -/
def scriptOpenAt : List Char → Bool
  | a :: rest =>
    if a = '<' then charsStartCI scriptPairs rest || slashScriptAt rest
    else false
  | [] => false

/-- Does the list contain a substring matching `<script` or `</script` in
any letter casing? -/
def hasScriptTag : List Char → Bool
  | [] => false
  | a :: rest => scriptOpenAt (a :: rest) || hasScriptTag rest

def criptPairs : List (Char × Char) :=
  [('c', 'C'), ('r', 'R'), ('i', 'I'), ('p', 'P'), ('t', 'T')]

theorem matchScriptAt_none_of_ne (a : Char) (l : List Char) (h : ¬a = '<') :
    matchScriptAt (a :: l) = none := by
  unfold matchScriptAt
  split <;> simp_all

theorem matchScriptAt_none_of_short (l : List Char) (h : l.length < 7) :
    matchScriptAt l = none := by
  unfold matchScriptAt
  split
  · exfalso; simp at h; omega
  · exfalso; simp at h; omega
  · rfl

theorem matchScriptAt_some_head {l out rest : List Char}
    (h : matchScriptAt l = some (out, rest)) :
    l.head? = some '<' ∧ out.head? = some '<' := by
  unfold matchScriptAt at h
  split at h
  · split at h
    · simp only [Option.some.injEq, Prod.mk.injEq] at h
      obtain ⟨h1, h2⟩ := h
      subst h1
      simp
    · cases h
  · split at h
    · simp only [Option.some.injEq, Prod.mk.injEq] at h
      obtain ⟨h1, h2⟩ := h
      subst h1
      simp
    · cases h
  · cases h

theorem escBSC_eq_of_some {l out rest : List Char}
    (h : matchScriptAt l = some (out, rest)) :
    escapeBootstrapScriptContent l = out ++ escapeBootstrapScriptContent rest := by
  rw [escapeBootstrapScriptContent.eq_def]
  split
  · next o r h2 => rw [h] at h2; cases h2; rfl
  · next h2 => rw [h] at h2; cases h2

theorem escBSC_eq_of_none_cons {x : Char} {rest : List Char}
    (h : matchScriptAt (x :: rest) = none) :
    escapeBootstrapScriptContent (x :: rest) =
      x :: escapeBootstrapScriptContent rest := by
  rw [escapeBootstrapScriptContent.eq_def]
  split
  · next o r h2 => rw [h] at h2; cases h2
  · rfl

theorem escBSC_cons_ne (x : Char) (rest : List Char) (h : ¬x = '<') :
    escapeBootstrapScriptContent (x :: rest) =
      x :: escapeBootstrapScriptContent rest :=
  escBSC_eq_of_none_cons (matchScriptAt_none_of_ne x rest h)

theorem escBSC_head_eq (l : List Char) :
    (escapeBootstrapScriptContent l).head? = l.head? := by
  rw [escapeBootstrapScriptContent.eq_def]
  split
  · next out rest h =>
    have h2 := matchScriptAt_some_head h
    cases out with
    | nil => simp at h2
    | cons o t => simp_all
  · next h =>
    cases l with
    | nil => rfl
    | cons x rest => rfl

theorem escBSC_short (l : List Char) (h : l.length < 7) :
    escapeBootstrapScriptContent l = l := by
  induction l with
  | nil => rw [escapeBootstrapScriptContent.eq_def]; rfl
  | cons x rest ih =>
    rw [escBSC_eq_of_none_cons (matchScriptAt_none_of_short _ h)]
    have : rest.length < 7 := by simp at h; omega
    rw [ih this]

theorem charsStartCI_false_of_short (pats : List (Char × Char))
    (l : List Char) (h : l.length < pats.length) :
    charsStartCI pats l = false := by
  induction pats generalizing l with
  | nil => simp at h
  | cons p ps ih =>
    cases l with
    | nil => rfl
    | cons x xs =>
      have : xs.length < ps.length := by simp at h; omega
      simp [charsStartCI, ih xs this]

theorem charsStartCI_false_of_head {lo hi : Char} {ps : List (Char × Char)}
    {X : List Char} {a : Char} (hh : X.head? = some a)
    (hf : (a = lo || a = hi) = false) :
    charsStartCI ((lo, hi) :: ps) X = false := by
  cases X with
  | nil => rfl
  | cons x xs =>
    simp only [List.head?_cons, Option.some.injEq] at hh
    subst hh
    simp [charsStartCI, hf]

theorem charsStartCI_pass {lo hi x : Char} {ps : List (Char × Char)}
    {xs : List Char} (hb : (x = lo || x = hi) = true) (hne : ¬x = '<') :
    charsStartCI ((lo, hi) :: ps) (escapeBootstrapScriptContent (x :: xs)) =
      charsStartCI ps (escapeBootstrapScriptContent xs) := by
  rw [escBSC_cons_ne x xs hne]
  simp [charsStartCI, hb]

theorem charsStartCI_fail {lo hi x : Char} {ps : List (Char × Char)}
    {xs : List Char} (hb : (x = lo || x = hi) = false) :
    charsStartCI ((lo, hi) :: ps) (escapeBootstrapScriptContent (x :: xs)) =
      false :=
  charsStartCI_false_of_head (by rw [escBSC_head_eq]; rfl) hb

theorem ne_lt_of_pass {lo hi x : Char} (hb : (x = lo || x = hi) = true)
    (h1 : ¬lo = '<') (h2 : ¬hi = '<') : ¬x = '<' := by
  simp at hb
  rcases hb with hb | hb <;> simp [hb, h1, h2]

/-- If the five characters do not spell `cript` case-insensitively, then the
escaped continuation does not start with `cript` case-insensitively. -/
theorem criptStart_false (c r i p t : Char) (rest : List Char)
    (h : isCriptChars c r i p t = false) :
    charsStartCI criptPairs
      (escapeBootstrapScriptContent (c :: r :: i :: p :: t :: rest)) = false := by
  simp only [criptPairs]
  cases hc : (c = 'c' || c = 'C') with
  | false => exact charsStartCI_fail hc
  | true =>
    rw [charsStartCI_pass hc (ne_lt_of_pass hc (by decide) (by decide))]
    cases hr : (r = 'r' || r = 'R') with
    | false => exact charsStartCI_fail hr
    | true =>
      rw [charsStartCI_pass hr (ne_lt_of_pass hr (by decide) (by decide))]
      cases hi : (i = 'i' || i = 'I') with
      | false => exact charsStartCI_fail hi
      | true =>
        rw [charsStartCI_pass hi (ne_lt_of_pass hi (by decide) (by decide))]
        cases hp : (p = 'p' || p = 'P') with
        | false => exact charsStartCI_fail hp
        | true =>
          rw [charsStartCI_pass hp (ne_lt_of_pass hp (by decide) (by decide))]
          cases ht : (t = 't' || t = 'T') with
          | false => exact charsStartCI_fail ht
          | true =>
            exfalso
            simp [isCriptChars, hc, hr, hi, hp, ht] at h

/-- A full `s` + `cript` literal check on the raw input. -/
def scriptLiteralAt : List Char → Bool
  | s :: c :: r :: i :: p :: t :: _ => isSChar s && isCriptChars c r i p t
  | _ => false

/-- If no `script` literal (case-insensitive) starts at this input position,
the escaped continuation does not start with one either. -/
theorem scriptStart_false (l : List Char) (h : scriptLiteralAt l = false) :
    charsStartCI scriptPairs (escapeBootstrapScriptContent l) = false := by
  match l with
  | [] => rw [escBSC_short [] (by simp)]; rfl
  | [a] | [a, b] | [a, b, c] | [a, b, c, d] | [a, b, c, d, e] =>
    rw [escBSC_short _ (by simp)]
    exact charsStartCI_false_of_short _ _ (by simp [scriptPairs])
  | s :: c :: r :: i :: p :: t :: rest =>
    simp only [scriptPairs]
    cases hs : (s = 's' || s = 'S') with
    | false => exact charsStartCI_fail hs
    | true =>
      rw [charsStartCI_pass hs (ne_lt_of_pass hs (by decide) (by decide))]
      have hcb : isCriptChars c r i p t = false := by
        have h2 : (isSChar s && isCriptChars c r i p t) = false := by
          simpa [scriptLiteralAt] using h
        simpa [isSChar, hs] using h2
      have := criptStart_false c r i p t rest hcb
      simpa [criptPairs] using this

theorem matchScriptAt_slash_shape (s c r i p t : Char) (rest2 : List Char) :
    matchScriptAt ('<' :: '/' :: s :: c :: r :: i :: p :: t :: rest2) =
      if isSChar s && isCriptChars c r i p t then
        some ('<' :: '/' :: (replacedS s ++ [c, r, i, p, t]), rest2)
      else none := rfl

theorem matchScriptAt_open_shape (s c r i p t : Char) (rest2 : List Char)
    (hs : ¬s = '/') :
    matchScriptAt ('<' :: s :: c :: r :: i :: p :: t :: rest2) =
      if isSChar s && isCriptChars c r i p t then
        some ('<' :: (replacedS s ++ [c, r, i, p, t]), rest2)
      else none := by
  unfold matchScriptAt
  split
  · simp_all
  · simp_all
  · rename_i hne
    exact (hne s c r i p t rest2 rfl).elim

theorem matchNone_literal_false {rest : List Char}
    (h : matchScriptAt ('<' :: rest) = none) :
    scriptLiteralAt rest = false := by
  match rest with
  | [] => rfl
  | [a] => rfl
  | [a, b] => rfl
  | [a, b, c] => rfl
  | [a, b, c, d] => rfl
  | [a, b, c, d, e] => rfl
  | s :: c :: r :: i :: p :: t :: rest2 =>
    by_cases hs : s = '/'
    · subst hs
      simp [scriptLiteralAt, isSChar]
    · rw [matchScriptAt_open_shape s c r i p t rest2 hs] at h
      simp only [scriptLiteralAt]
      cases hguard : (isSChar s && isCriptChars c r i p t) with
      | false => rfl
      | true => rw [hguard] at h; simp at h

theorem matchNone_slash_literal_false {rest1 : List Char}
    (h : matchScriptAt ('<' :: '/' :: rest1) = none) :
    scriptLiteralAt rest1 = false := by
  match rest1 with
  | [] => rfl
  | [a] => rfl
  | [a, b] => rfl
  | [a, b, c] => rfl
  | [a, b, c, d] => rfl
  | [a, b, c, d, e] => rfl
  | s :: c :: r :: i :: p :: t :: rest2 =>
    simp only [scriptLiteralAt]
    cases hguard : (isSChar s && isCriptChars c r i p t) with
    | false => rfl
    | true =>
      exfalso
      rw [matchScriptAt_slash_shape, hguard] at h
      simp at h

theorem hasScriptTag_cons (a : Char) (rest : List Char) :
    hasScriptTag (a :: rest) = (scriptOpenAt (a :: rest) || hasScriptTag rest) :=
  rfl

theorem hasScriptTag_cons_ne {x : Char} {l : List Char} (h : ¬x = '<') :
    hasScriptTag (x :: l) = hasScriptTag l := by
  simp [hasScriptTag_cons, scriptOpenAt, h]

theorem hasScriptTag_append_no_lt (pre l : List Char)
    (h : ∀ x ∈ pre, ¬x = '<') :
    hasScriptTag (pre ++ l) = hasScriptTag l := by
  induction pre with
  | nil => rfl
  | cons x xs ih =>
    rw [List.cons_append, hasScriptTag_cons_ne (h x (by simp))]
    exact ih (fun y hy => h y (by simp [hy]))

theorem slashScriptAt_false_of_head {X : List Char} {b : Char}
    (hh : X.head? = some b) (hb : ¬b = '/') : slashScriptAt X = false := by
  cases X with
  | nil => rfl
  | cons x xs =>
    simp only [List.head?_cons, Option.some.injEq] at hh
    subst hh
    simp [slashScriptAt, hb]

/-- The block emitted for a match of the `</script` alternative contains no
banned occurrence before the continuation. -/
theorem noTag_close_block (s c r i p t : Char) (X : List Char)
    (hg : (isSChar s && isCriptChars c r i p t) = true)
    (hX : hasScriptTag X = false) :
    hasScriptTag (('<' :: '/' :: (replacedS s ++ [c, r, i, p, t])) ++ X) =
      false := by
  simp only [isSChar, isCriptChars, Bool.and_eq_true, Bool.or_eq_true,
    decide_eq_true_eq, and_assoc] at hg
  obtain ⟨hs, hc, hr, hi, hp, ht⟩ := hg
  have hmem : ∀ x ∈ ('/' :: (replacedS s ++ [c, r, i, p, t])), ¬x = '<' := by
    intro x hx
    rintro rfl
    rcases hs with rfl | rfl <;> rcases hc with rfl | rfl <;>
      rcases hr with rfl | rfl <;> rcases hi with rfl | rfl <;>
      rcases hp with rfl | rfl <;> rcases ht with rfl | rfl <;>
      exact absurd hx (by decide)
  rw [show (('<' :: '/' :: (replacedS s ++ [c, r, i, p, t])) ++ X) =
      '<' :: (('/' :: (replacedS s ++ [c, r, i, p, t])) ++ X) from rfl]
  rw [hasScriptTag_cons]
  have hB : hasScriptTag (('/' :: (replacedS s ++ [c, r, i, p, t])) ++ X) =
      false := by
    rw [hasScriptTag_append_no_lt _ _ hmem]
    exact hX
  rw [hB]
  have hA : scriptOpenAt
      ('<' :: (('/' :: (replacedS s ++ [c, r, i, p, t])) ++ X)) = false := by
    rcases hs with hs | hs <;> subst hs <;>
      simp [scriptOpenAt, slashScriptAt, charsStartCI, scriptPairs, replacedS]
  rw [hA]
  rfl

/-- The block emitted for a match of the `<script` alternative contains no
banned occurrence before the continuation. -/
theorem noTag_open_block (s c r i p t : Char) (X : List Char)
    (hg : (isSChar s && isCriptChars c r i p t) = true)
    (hX : hasScriptTag X = false) :
    hasScriptTag (('<' :: (replacedS s ++ [c, r, i, p, t])) ++ X) = false := by
  simp only [isSChar, isCriptChars, Bool.and_eq_true, Bool.or_eq_true,
    decide_eq_true_eq, and_assoc] at hg
  obtain ⟨hs, hc, hr, hi, hp, ht⟩ := hg
  have hmem : ∀ x ∈ (replacedS s ++ [c, r, i, p, t]), ¬x = '<' := by
    intro x hx
    rintro rfl
    rcases hs with rfl | rfl <;> rcases hc with rfl | rfl <;>
      rcases hr with rfl | rfl <;> rcases hi with rfl | rfl <;>
      rcases hp with rfl | rfl <;> rcases ht with rfl | rfl <;>
      exact absurd hx (by decide)
  rw [show (('<' :: (replacedS s ++ [c, r, i, p, t])) ++ X) =
      '<' :: ((replacedS s ++ [c, r, i, p, t]) ++ X) from rfl]
  rw [hasScriptTag_cons]
  have hB : hasScriptTag ((replacedS s ++ [c, r, i, p, t]) ++ X) = false := by
    rw [hasScriptTag_append_no_lt _ _ hmem]
    exact hX
  rw [hB]
  have hA : scriptOpenAt
      ('<' :: ((replacedS s ++ [c, r, i, p, t]) ++ X)) = false := by
    rcases hs with hs | hs <;> subst hs <;>
      simp [scriptOpenAt, slashScriptAt, charsStartCI, scriptPairs, replacedS]
  rw [hA]
  rfl

/-- C10: for every bootstrapScriptContent string, the result of
`escapeBootstrapScriptContent` (which rewrites the letter s of every
case-insensitive occurrence of `<script` or `</script` to the JS escape
`s`, `S` when uppercase, per `scriptRegex` / `scriptReplacer`)
contains no substring matching `<script` or `</script` in any letter
casing, so the inline bootstrap script can never be terminated early by its
own content. -/
theorem c10_escapeBootstrapScriptContent_no_script_tag (l : List Char) :
    hasScriptTag (escapeBootstrapScriptContent l) = false := by
  induction l using escapeBootstrapScriptContent.induct with
  | case1 l out rest h ih =>
    rw [escBSC_eq_of_some h]
    unfold matchScriptAt at h
    split at h
    · rename_i s c r i p t rest2
      split at h
      · rename_i hguard
        simp only [Option.some.injEq, Prod.mk.injEq] at h
        obtain ⟨ho, hr2⟩ := h
        subst ho
        subst hr2
        exact noTag_close_block s c r i p t _ hguard ih
      · cases h
    · rename_i s c r i p t rest2 hne2
      split at h
      · rename_i hguard
        simp only [Option.some.injEq, Prod.mk.injEq] at h
        obtain ⟨ho, hr2⟩ := h
        subst ho
        subst hr2
        exact noTag_open_block s c r i p t _ hguard ih
      · cases h
    · cases h
  | case2 _ _ =>
    rw [escBSC_short [] (by simp)]
    rfl
  | case3 x rest h _h2 ih =>
    rw [escBSC_eq_of_none_cons h]
    rw [hasScriptTag_cons, ih]
    by_cases hx : x = '<'
    · subst hx
      have h1 := matchNone_literal_false h
      have hA1 : charsStartCI scriptPairs (escapeBootstrapScriptContent rest) =
          false := scriptStart_false rest h1
      have hA2 : slashScriptAt (escapeBootstrapScriptContent rest) = false := by
        cases rest with
        | nil => rw [escBSC_short [] (by simp)]; rfl
        | cons b rest1 =>
          by_cases hb : b = '/'
          · subst hb
            rw [escBSC_cons_ne '/' rest1 (by decide)]
            have h2 := @matchNone_slash_literal_false rest1 h
            simp [slashScriptAt]
            exact scriptStart_false rest1 h2
          · exact slashScriptAt_false_of_head
              (by rw [escBSC_head_eq]; rfl) hb
      simp [scriptOpenAt, hA1, hA2]
    · simp [scriptOpenAt, hx]

end ReactFizz

namespace ReactFizz

/-- C9: `pushTextInstance` with the empty string appends no chunks and
returns its `textEmbedded` argument unchanged; with a non-empty string it
appends the HTML-escaped text, preceded by the `<!-- -->` text separator
chunk exactly when `textEmbedded` is true, and returns `true`. -/
theorem c9_pushTextInstance_behavior (target : List Chunk) (text : String)
    (rs : ResponseState) (e : Bool) :
    (text = "" → pushTextInstance target text rs e = (target, e)) ∧
    (text ≠ "" → pushTextInstance target text rs e =
      ((target ++ (if e then [textSeparator] else [])) ++
        [Chunk.str (escapeTextForBrowser text)], true)) := by
  constructor
  · intro h
    simp [pushTextInstance, h]
  · intro h
    cases e <;> simp [pushTextInstance, h]

theorem c9_pushTextInstance_behavior_witness :
    pushTextInstance [] "" {} true = ([], true) ∧
    pushTextInstance [] "ab" {} true =
      ([textSeparator, Chunk.str "ab"], true) := by
  constructor
  · exact (c9_pushTextInstance_behavior [] "" {} true).1 rfl
  · have h := (c9_pushTextInstance_behavior [] "ab" {} true).2 (by decide)
    rw [h]
    decide

/-- C5 counterexample: the claim's void set contains `menuitem`, but
`pushEndInstance` for `menuitem` is not in the omitted-close-tags switch arm
and appends the closing tag chunks `</`, `menuitem`, `>` — not zero
chunks. -/
theorem c5_menuitem_close_tag_counterexample :
    pushEndInstance [] "menuitem" {} ⟨HTML_MODE, none, false⟩ ≠ [] := by
  decide

/-- C5 (amended): for every element type in the spec's void set without
`menuitem` (area base br col embed hr img input keygen link param source
track wbr), and for every props object and format context, `pushEndInstance`
appends zero chunks to the target; for `menuitem` itself the code emits a
`</menuitem>` closing tag. -/
theorem c5_void_elements_zero_close_chunks (type : String)
    (h : type ∈ ["area", "base", "br", "col", "embed", "hr", "img", "input",
      "keygen", "link", "param", "source", "track", "wbr"])
    (target : List Chunk) (props : Props) (ctx : FormatContext) :
    pushEndInstance target type props ctx = target := by
  fin_cases h <;> simp [pushEndInstance, omittedCloseTags]

theorem c5_void_elements_zero_close_chunks_witness :
    pushEndInstance [] "area" {} ⟨HTML_MODE, none, false⟩ = [] :=
  c5_void_elements_zero_close_chunks "area" (by decide) [] {}
    ⟨HTML_MODE, none, false⟩

/-! ## The resource registry (`ReactDOMFloatServer.js`)

Record identity in the JS heap is the URL key of the owning map
(`preloadsMap` / `stylesMap` / `scriptsMap`), because each `create*Resource`
runs only when the key is absent.  Ordered `Set`s of records therefore
become insertion-ordered duplicate-free lists of URL keys; a `StyleResource`'s
`hint` field is the `preloadsMap` record of the same href and its `set`
field is the `precedences` entry of its own `precedence`, so neither needs
to be stored.  The `flushed` mutations on base / head-tag records are not
observable (no reader exists in the source), so `bases`, `preconnects` and
`headResources` store the records' props directly. -/

structure PreloadResource where
  rAs : String
  props : Props
  flushed : Bool
deriving Repr, DecidableEq

structure StyleResource where
  precedence : String
  props : Props
  flushed : Bool
  inShell : Bool
deriving Repr, DecidableEq

structure ScriptResource where
  props : Props
  flushed : Bool
deriving Repr, DecidableEq

inductive HeadResource where
  | titleRes (props : Props)
  | metaRes (props : Props)
  | linkRes (props : Props)
deriving Repr, DecidableEq

structure Resources where
  preloadsMap : List (String × PreloadResource) := []
  stylesMap : List (String × StyleResource) := []
  scriptsMap : List (String × ScriptResource) := []
  bases : List Props := []
  preconnects : List Props := []
  fontPreloads : List String := []
  firstPrecedence : String := ""
  firstPrecedenceFlushed : Bool := false
  precedences : List (String × List String) := []
  usedStylePreloads : List String := []
  scripts : List String := []
  usedScriptPreloads : List String := []
  explicitStylePreloads : List String := []
  explicitScriptPreloads : List String := []
  headResources : List HeadResource := []
  boundaryResources : Option (List String) := none
deriving Repr, DecidableEq

def createResources : Resources := {}

/-- JS `Set.add`: appends unless present, keeping insertion order. -/
def sadd (l : List String) (x : String) : List String :=
  if x ∈ l then l else l ++ [x]

/-- Update the record stored under a key of an insertion-ordered map. -/
def mapUpdate {α : Type} (m : List (String × α)) (k : String) (f : α → α) :
    List (String × α) :=
  m.map (fun p => if p.1 = k then (p.1, f p.2) else p)

structure PreloadOptions where
  rAs : String
  crossOrigin : Option String := none
  integrity : Option String := none
deriving Repr, DecidableEq

structure PreinitOptions where
  rAs : String
  precedence : Option String := none
  crossOrigin : Option String := none
  integrity : Option String := none
deriving Repr, DecidableEq

def preloadPropsFromPreloadOptions (href rAs : String)
    (options : PreloadOptions) : Props :=
  { href := some href, rel := some "preload", rAs := some rAs,
    crossOrigin := if rAs = "font" then some "" else options.crossOrigin,
    integrity := options.integrity }

def preloadPropsFromRawProps (href rAs : String) (rawProps : Props) : Props :=
  let props := { rawProps with
      href := some href, rel := some "preload", rAs := some rAs }
  if rAs = "font" then { props with crossOrigin := some "" } else props

def preloadAsStylePropsFromProps (href : String) (props : Props) : Props :=
  { rel := some "preload", rAs := some "style", href := some href,
    crossOrigin := props.crossOrigin, integrity := props.integrity,
    media := props.media, hrefLang := props.hrefLang,
    referrerPolicy := props.referrerPolicy }

def preloadAsScriptPropsFromProps (href : String) (props : Props) : Props :=
  { rel := some "preload", rAs := some "script", href := some href,
    crossOrigin := props.crossOrigin, integrity := props.integrity,
    referrerPolicy := props.referrerPolicy }

def stylePropsFromRawProps (href precedence : String)
    (rawProps : Props) : Props :=
  { rawProps with
      href := some href, rel := some "stylesheet",
      dataPrecedence := some precedence, precedence := none }

def stylePropsFromPreinitOptions (href precedence : String)
    (options : PreinitOptions) : Props :=
  { rel := some "stylesheet", href := some href,
    dataPrecedence := some precedence, crossOrigin := options.crossOrigin }

def adoptPreloadPropsForStyleProps (resourceProps preloadProps : Props) :
    Props :=
  let rp := if resourceProps.crossOrigin = none then
    { resourceProps with crossOrigin := preloadProps.crossOrigin }
    else resourceProps
  let rp := if rp.referrerPolicy = none then
    { rp with referrerPolicy := preloadProps.referrerPolicy } else rp
  if rp.title = none then { rp with title := preloadProps.title } else rp

def scriptPropsFromPreinitOptions (src : String)
    (options : PreinitOptions) : Props :=
  { src := some src, async := true, crossOrigin := options.crossOrigin,
    integrity := options.integrity }

def scriptPropsFromRawProps (src : String) (rawProps : Props) : Props :=
  { rawProps with src := some src }

def adoptPreloadPropsForScriptProps (resourceProps preloadProps : Props) :
    Props :=
  let rp := if resourceProps.crossOrigin = none then
    { resourceProps with crossOrigin := preloadProps.crossOrigin }
    else resourceProps
  let rp := if rp.referrerPolicy = none then
    { rp with referrerPolicy := preloadProps.referrerPolicy } else rp
  if rp.integrity = none then { rp with integrity := preloadProps.integrity }
  else rp

/-- `createPreloadResource`: called only when `preloadsMap` lacks the href. -/
def createPreloadResource (resources : Resources) (href rAs : String)
    (props : Props) : Resources :=
  { resources with
      preloadsMap := resources.preloadsMap ++
      [(href, { rAs := rAs, props := props, flushed := false })] }

/-- `resource.set.add(resource)`: add the href to its precedence bucket. -/
def precedenceSetAdd (resources : Resources) (precedence href : String) :
    Resources :=
  { resources with
      precedences :=
      mapUpdate resources.precedences precedence (fun s => sadd s href) }

/-- Store a fresh style record in `stylesMap`. -/
def addStyleRecord (resources : Resources) (href precedence : String)
    (props : Props) : Resources :=
  { resources with
      stylesMap := resources.stylesMap ++
        [(href,
          { precedence := precedence, props := props, flushed := false,
            inShell := false })] }

/-- The precedence-bucket stage of `createStyleResource` (records the first
precedence ever seen when creating a bucket). -/
def ensurePrecedenceBucket (resources : Resources) (precedence : String) :
    Resources :=
  match resources.precedences.lookup precedence with
  | some _ => resources
  | none =>
    let r := { resources with
        precedences := resources.precedences ++ [(precedence, [])] }
    if resources.firstPrecedence = "" then
      { r with firstPrecedence := precedence }
    else r

/-- `createStyleResource`: ensures the precedence bucket, adopts or creates
the preload hint, and stores the new style record.  Called only when
`stylesMap` lacks the href. -/
def createStyleResource (resources : Resources) (href precedence : String)
    (props : Props) : Resources :=
  let resources := ensurePrecedenceBucket resources precedence
  match resources.preloadsMap.lookup href with
  | some hint =>
    addStyleRecord resources href precedence
      (adoptPreloadPropsForStyleProps props hint.props)
  | none =>
    let preloadResourceProps := preloadAsStylePropsFromProps href props
    let resources :=
      createPreloadResource resources href "style" preloadResourceProps
    let resources := { resources with
        explicitStylePreloads := sadd resources.explicitStylePreloads href }
    addStyleRecord resources href precedence props



/-- Store a fresh script record in `scriptsMap`. -/
def addScriptRecord (resources : Resources) (src : String) (props : Props) :
    Resources :=
  { resources with
      scriptsMap := resources.scriptsMap ++
        [(src, { props := props, flushed := false })] }

/-- `createScriptResource`: adopts or creates the preload hint and stores
the new script record.  Called only when `scriptsMap` lacks the src. -/
def createScriptResource (resources : Resources) (src : String)
    (props : Props) : Resources :=
  match resources.preloadsMap.lookup src with
  | some hint =>
    addScriptRecord resources src
      (adoptPreloadPropsForScriptProps props hint.props)
  | none =>
    let preloadResourceProps := preloadAsScriptPropsFromProps src props
    let resources :=
      createPreloadResource resources src "script" preloadResourceProps
    let resources := { resources with
        explicitScriptPreloads := sadd resources.explicitScriptPreloads src }
    addScriptRecord resources src props



/-- The get-or-create stage of `preload`. -/
def preloadEnsure (resources : Resources) (href : String)
    (options : PreloadOptions) : Resources :=
  match resources.preloadsMap.lookup href with
  | some _ => resources
  | none =>
    createPreloadResource resources href options.rAs
      (preloadPropsFromPreloadOptions href options.rAs options)

/-- The `switch (as)` classification stage of `preload`, run on every call
(also when the record already existed). -/
def preloadClassify (resources : Resources) (href rAs : String) : Resources :=
  if rAs = "font" then
    { resources with fontPreloads := sadd resources.fontPreloads href }
  else if rAs = "style" then
    { resources with
        explicitStylePreloads := sadd resources.explicitStylePreloads href }
  else if rAs = "script" then
    { resources with
        explicitScriptPreloads := sadd resources.explicitScriptPreloads href }
  else resources

/-- `preload(href, options)` (dispatcher function; the current resources are
passed explicitly instead of through the module-global). -/
def preload (resources : Resources) (href : String)
    (options : PreloadOptions) : Resources :=
  if href = "" then resources
  else preloadClassify (preloadEnsure resources href options) href options.rAs

/-- The tail of the `case 'style'` branch of `preinitImpl`:
`resource.set.add(resource)` then
`resources.explicitStylePreloads.add(resource.hint)`. -/
def preinitStyleTail (resources : Resources)
    (resourcePrecedence href : String) : Resources :=
  let resources := precedenceSetAdd resources resourcePrecedence href
  { resources with
      explicitStylePreloads := sadd resources.explicitStylePreloads href }

/-- The `case 'style'` branch of `preinitImpl`. -/
def preinitStyle (resources : Resources) (href : String)
    (options : PreinitOptions) : Resources :=
  match resources.stylesMap.lookup href with
  | some resource => preinitStyleTail resources resource.precedence href
  | none =>
    let precedence :=
      match options.precedence with
      | some p => if p = "" then "default" else p
      | none => "default"
    let resourceProps :=
      stylePropsFromPreinitOptions href precedence options
    preinitStyleTail
      (createStyleResource resources href precedence resourceProps)
      precedence href



/-- The `case 'script'` branch of `preinitImpl`. -/
def preinitScript (resources : Resources) (src : String)
    (options : PreinitOptions) : Resources :=
  match resources.scriptsMap.lookup src with
  | some _ => resources
  | none =>
    let scriptProps := scriptPropsFromPreinitOptions src options
    let resources := createScriptResource resources src scriptProps
    { resources with scripts := sadd resources.scripts src }

/-- `preinitImpl(resources, href, options)`. -/
def preinitImpl (resources : Resources) (href : String)
    (options : PreinitOptions) : Resources :=
  if href = "" then resources
  else if options.rAs = "style" then preinitStyle resources href options
  else if options.rAs = "script" then preinitScript resources href options
  else resources

/-- `resources.boundaryResources.add(resource)` when a boundary resource
set is active, else `resource.set.add(resource)`. -/
def styleScopeAdd (resources : Resources) (resourcePrecedence href : String) :
    Resources :=
  match resources.boundaryResources with
  | some set =>
    { resources with boundaryResources := some (sadd set href) }
  | none => precedenceSetAdd resources resourcePrecedence href

/-- The resource-qualifying branch of `pushLink` for `rel="stylesheet"`
(precedence a string, no `onLoad`/`onError`, `disabled` null): reuse or
create the style resource, then add it to the current boundary's resource
set or to its own precedence set. -/
def pushLinkStylesheetResource (resources : Resources) (href precedence :
    String) (rawProps : Props) : Resources :=
  match resources.stylesMap.lookup href with
  | some resource => styleScopeAdd resources resource.precedence href
  | none =>
    let resourceProps := stylePropsFromRawProps href precedence rawProps
    let resources := createStyleResource resources href precedence
      resourceProps
    let resources := { resources with
        usedStylePreloads := sadd resources.usedStylePreloads href }
    styleScopeAdd resources precedence href



/-! ### Flushing the registry -/

/-- Mark the preload record for this href flushed (`r.hint.flushed = true`
and `flushLinkResource`'s update). -/
def setPreloadFlushed (resources : Resources) (href : String) : Resources :=
  { resources with
      preloadsMap := mapUpdate resources.preloadsMap href (fun r =>
        { r with flushed := true }) }

/-- The font-preload / preconnect loops: the `flushed` check is elided in
the source ("font preload Resources should not already be flushed so we
elide this check"), so the tag is pushed unconditionally. -/
def flushPreloadsNoCheck (st : Resources × List Chunk) (hrefs : List String) :
    Resources × List Chunk :=
  hrefs.foldl (fun acc h =>
    match acc.1.preloadsMap.lookup h with
    | none => acc
    | some r => (setPreloadFlushed acc.1 h, acc.2 ++ [Chunk.linkTag r.props]))
    st

/-- `flushLinkResource`: push the link only when not yet flushed. -/
def flushPreloadsChecked (st : Resources × List Chunk)
    (hrefs : List String) : Resources × List Chunk :=
  hrefs.foldl (fun acc h =>
    match acc.1.preloadsMap.lookup h with
    | none => acc
    | some r =>
      if r.flushed then acc
      else (setPreloadFlushed acc.1 h, acc.2 ++ [Chunk.linkTag r.props]))
    st

/-- One stylesheet of a precedence group: pushed unless already flushed;
marks the style flushed and in-shell and its hint flushed. -/
def flushStyleInShell (acc : Resources × List Chunk) (href : String) :
    Resources × List Chunk :=
  match acc.1.stylesMap.lookup href with
  | none => acc
  | some r =>
    if r.flushed then acc
    else
      let res := { acc.1 with
          stylesMap := mapUpdate acc.1.stylesMap href (fun s =>
            { s with flushed := true, inShell := true }) }
      let res := setPreloadFlushed res href
      (res, acc.2 ++ [Chunk.linkTag r.props])

/-- The `scripts` loop ("should never be flushed already": unconditional
push), marking both the script and its hint flushed. -/
def flushScripts (st : Resources × List Chunk) (hrefs : List String) :
    Resources × List Chunk :=
  hrefs.foldl (fun acc h =>
    match acc.1.scriptsMap.lookup h with
    | none => acc
    | some r =>
      let res := { acc.1 with
          scriptsMap := mapUpdate acc.1.scriptsMap h (fun s =>
            { s with flushed := true }) }
      let res := setPreloadFlushed res h
      (res, acc.2 ++ [Chunk.scriptTag r.props]))
    st

def headResourceChunk : HeadResource → Chunk
  | .titleRes props => Chunk.titleTag props
  | .metaRes props => Chunk.selfClosing "meta" props
  | .linkRes props => Chunk.linkTag props

def precedencePlaceholderStart : Chunk := Chunk.str "<style data-precedence=\""
def precedencePlaceholderEnd : Chunk := Chunk.str "\"></style>"

/-- The per-response external-runtime `preinitImpl` call made at the top of
each resource write when instructions will be emitted. -/
def externalRuntimePreinit (resources : Resources) (rs : ResponseState)
    (willEmitInstructions : Bool) : Resources :=
  match rs.externalRuntimeSrc, willEmitInstructions with
  | some src, true =>
    preinitImpl resources src
      { rAs := "script", integrity := rs.externalRuntimeIntegrity }
  | _, _ => resources

/-- The stylesheet-precedence loop of `writeInitialResources`: every
precedence group in first-seen order; a non-empty group flushes its
unflushed members and is cleared, an empty group emits a placeholder
`<style data-precedence>` (except the first precedence when it was already
flushed by an early flush). -/
def flushPrecedences (st : Resources × List Chunk)
    (firstPrecedence : String) (firstPrecedenceFlushed : Bool)
    (groups : List (String × List String)) : Resources × List Chunk :=
  groups.foldl (fun acc pp =>
    if pp.1 = firstPrecedence ∧ firstPrecedenceFlushed ∧ pp.2 = [] then acc
    else if pp.2 ≠ [] then
      let acc2 := pp.2.foldl flushStyleInShell acc
      ({ acc2.1 with
          precedences := mapUpdate acc2.1.precedences pp.1 (fun _ => []) },
        acc2.2)
    else
      (acc.1, acc.2 ++ [precedencePlaceholderStart,
        Chunk.str (escapeTextForBrowser pp.1), precedencePlaceholderEnd]))
    st

/-- `writeInitialResources` (the body that fills `target`; the final
write-loop to the destination preserves the chunks in order, so the chunk
list is returned together with the mutated registry). -/
def writeInitialResources (resources : Resources) (rs : ResponseState)
    (willEmitInstructions : Bool) : List Chunk × Resources :=
  let resources := externalRuntimePreinit resources rs willEmitInstructions
  let firstPrecedence := resources.firstPrecedence
  let firstPrecedenceFlushed := resources.firstPrecedenceFlushed
  let target := resources.bases.map (fun p => Chunk.selfClosing "base" p)
  let resources := { resources with bases := [] }
  let target := target ++ resources.preconnects.map Chunk.linkTag
  let resources := { resources with preconnects := [] }
  let st := flushPreloadsNoCheck (resources, target) resources.fontPreloads
  let resources := { st.1 with fontPreloads := [] }
  let target := st.2
  let st := flushPrecedences (resources, target)
    firstPrecedence firstPrecedenceFlushed resources.precedences
  let resources := st.1
  let target := st.2
  let st := flushPreloadsChecked (resources, target)
    resources.usedStylePreloads
  let resources := { st.1 with usedStylePreloads := [] }
  let target := st.2
  let st := flushScripts (resources, target) resources.scripts
  let resources := { st.1 with scripts := [] }
  let target := st.2
  let st := flushPreloadsChecked (resources, target)
    resources.usedScriptPreloads
  let resources := { st.1 with usedScriptPreloads := [] }
  let target := st.2
  let st := flushPreloadsChecked (resources, target)
    resources.explicitStylePreloads
  let resources := { st.1 with explicitStylePreloads := [] }
  let target := st.2
  let st := flushPreloadsChecked (resources, target)
    resources.explicitScriptPreloads
  let resources := { st.1 with explicitScriptPreloads := [] }
  let target := st.2
  let target := target ++ resources.headResources.map headResourceChunk
  let resources := { resources with headResources := [] }
  (target, resources)

/-- `writeResources` (later flush points): identical to
`writeInitialResources` but without the `bases` and stylesheet-precedence
sections. -/
def writeResources (resources : Resources) (rs : ResponseState)
    (willEmitInstructions : Bool) : List Chunk × Resources :=
  let resources := externalRuntimePreinit resources rs willEmitInstructions
  let target := resources.preconnects.map Chunk.linkTag
  let resources := { resources with preconnects := [] }
  let (resources, target) :=
    flushPreloadsNoCheck (resources, target) resources.fontPreloads
  let resources := { resources with fontPreloads := [] }
  let (resources, target) :=
    flushPreloadsChecked (resources, target) resources.usedStylePreloads
  let resources := { resources with usedStylePreloads := [] }
  let (resources, target) := flushScripts (resources, target)
    resources.scripts
  let resources := { resources with scripts := [] }
  let (resources, target) :=
    flushPreloadsChecked (resources, target) resources.usedScriptPreloads
  let resources := { resources with usedScriptPreloads := [] }
  let (resources, target) :=
    flushPreloadsChecked (resources, target) resources.explicitStylePreloads
  let resources := { resources with explicitStylePreloads := [] }
  let (resources, target) :=
    flushPreloadsChecked (resources, target) resources.explicitScriptPreloads
  let resources := { resources with explicitScriptPreloads := [] }
  let target := target ++ resources.headResources.map headResourceChunk
  let resources := { resources with headResources := [] }
  (target, resources)

/-- `resourcesFromScript(props)`: async scripts with handlers only get a
preload hint; async scripts without handlers become managed script
resources; non-async scripts are left alone. -/
def resourcesFromScript (resources : Resources) (props : Props) : Resources :=
  match props.src with
  | none => resources
  | some src =>
    if src = "" then resources
    else if props.async then
      if props.onLoad || props.onError then
        match resources.preloadsMap.lookup src with
        | some _ => resources
        | none =>
          let resources := createPreloadResource resources src "script"
            (preloadAsScriptPropsFromProps src props)
          { resources with
              usedScriptPreloads :=
              sadd resources.usedScriptPreloads src }
      else
        match resources.scriptsMap.lookup src with
        | some _ => resources
        | none =>
          let resources := createScriptResource resources src
            (scriptPropsFromRawProps src props)
          { resources with scripts := sadd resources.scripts src }
    else resources

end ReactFizz

namespace ReactFizz


theorem sadd_idem (l : List String) (x : String) :
    sadd (sadd l x) x = sadd l x := by
  by_cases h : x ∈ l
  · simp [sadd, h]
  · unfold sadd
    rw [if_neg h, if_pos (by simp)]

theorem lookup_append_none {α : Type} (m n : List (String × α)) (k : String)
    (h : m.lookup k = none) : (m ++ n).lookup k = n.lookup k := by
  induction m with
  | nil => simp
  | cons p es ih =>
    cases hkp : (k == p.1) with
    | true => simp [List.lookup, hkp] at h
    | false =>
      simp only [List.lookup, List.cons_append, hkp] at h ⊢
      exact ih h

theorem lookup_insert {α : Type} (m : List (String × α)) (k : String) (v : α)
    (h : m.lookup k = none) : (m ++ [(k, v)]).lookup k = some v := by
  rw [lookup_append_none m _ k h]
  simp [List.lookup]

theorem mapUpdate_mapUpdate {α : Type} (m : List (String × α)) (k : String)
    (f g : α → α) :
    mapUpdate (mapUpdate m k f) k g = mapUpdate m k (fun x => g (f x)) := by
  unfold mapUpdate
  rw [List.map_map]
  apply List.map_congr_left
  intro p _
  by_cases hp : p.1 = k
  · simp [hp]
  · simp [Function.comp, hp]

theorem mapUpdate_sadd_idem (m : List (String × List String)) (p h : String) :
    mapUpdate (mapUpdate m p (fun s => sadd s h)) p (fun s => sadd s h) =
      mapUpdate m p (fun s => sadd s h) := by
  rw [mapUpdate_mapUpdate]
  unfold mapUpdate
  apply List.map_congr_left
  intro q _
  by_cases hq : q.1 = p <;> simp [hq, sadd_idem]

theorem precedenceSetAdd_idem (r : Resources) (p h : String) :
    precedenceSetAdd (precedenceSetAdd r p h) p h = precedenceSetAdd r p h := by
  unfold precedenceSetAdd
  simp [mapUpdate_sadd_idem]

theorem createPreloadResource_lookup (r : Resources) (h a : String)
    (props : Props) (hm : r.preloadsMap.lookup h = none) :
    (createPreloadResource r h a props).preloadsMap.lookup h =
      some { rAs := a, props := props, flushed := false } := by
  unfold createPreloadResource
  exact lookup_insert _ _ _ hm

theorem preloadEnsure_lookup_isSome (r : Resources) (h : String)
    (o : PreloadOptions) :
    ((preloadEnsure r h o).preloadsMap.lookup h).isSome = true := by
  unfold preloadEnsure
  cases hm : r.preloadsMap.lookup h with
  | some v => simp [hm]
  | none => simp [createPreloadResource_lookup r h _ _ hm]

theorem preloadEnsure_of_some (r : Resources) (h : String)
    (o : PreloadOptions) (v : PreloadResource)
    (hm : r.preloadsMap.lookup h = some v) : preloadEnsure r h o = r := by
  unfold preloadEnsure
  rw [hm]

theorem preloadClassify_preloadsMap (r : Resources) (h a : String) :
    (preloadClassify r h a).preloadsMap = r.preloadsMap := by
  unfold preloadClassify
  split_ifs <;> rfl

theorem preloadClassify_idem (r : Resources) (h a : String) :
    preloadClassify (preloadClassify r h a) h a = preloadClassify r h a := by
  unfold preloadClassify
  split_ifs <;> simp [sadd_idem]

theorem preload_idem (r : Resources) (href : String) (o : PreloadOptions) :
    preload (preload r href o) href o = preload r href o := by
  by_cases hh : href = ""
  · simp [preload, hh]
  · simp only [preload, if_neg hh]
    have h1 : preloadEnsure (preloadClassify (preloadEnsure r href o) href
        o.rAs) href o = preloadClassify (preloadEnsure r href o) href o.rAs := by
      have h2 := preloadEnsure_lookup_isSome r href o
      cases hm : (preloadEnsure r href o).preloadsMap.lookup href with
      | none => rw [hm] at h2; simp at h2
      | some v =>
        apply preloadEnsure_of_some _ _ _ v
        rw [preloadClassify_preloadsMap]
        exact hm
    rw [h1, preloadClassify_idem]

/-- The props stored on a freshly created style record (hint-adopted when a
preload already existed). -/
def createdStyleProps (r : Resources) (h : String) (pr : Props) : Props :=
  match r.preloadsMap.lookup h with
  | some hint => adoptPreloadPropsForStyleProps pr hint.props
  | none => pr

theorem ensurePrecedenceBucket_preloadsMap (r : Resources) (p : String) :
    (ensurePrecedenceBucket r p).preloadsMap = r.preloadsMap := by
  unfold ensurePrecedenceBucket
  repeat' split
  all_goals rfl

theorem ensurePrecedenceBucket_stylesMap (r : Resources) (p : String) :
    (ensurePrecedenceBucket r p).stylesMap = r.stylesMap := by
  unfold ensurePrecedenceBucket
  repeat' split
  all_goals rfl

theorem createStyleResource_stylesMap (r : Resources) (h p : String)
    (pr : Props) :
    (createStyleResource r h p pr).stylesMap =
      r.stylesMap ++
        [(h,
          { precedence := p, props := createdStyleProps r h pr,
            flushed := false, inShell := false })] := by
  unfold createStyleResource addStyleRecord createdStyleProps
  dsimp only
  rw [ensurePrecedenceBucket_preloadsMap]
  cases hm : r.preloadsMap.lookup h with
  | some hint => simp [hm, ensurePrecedenceBucket_stylesMap,
      createPreloadResource]
  | none => simp [hm, ensurePrecedenceBucket_stylesMap,
      createPreloadResource]

theorem createStyleResource_lookup (r : Resources) (h p : String) (pr : Props)
    (hm : r.stylesMap.lookup h = none) :
    (createStyleResource r h p pr).stylesMap.lookup h =
      some { precedence := p, props := createdStyleProps r h pr,
             flushed := false, inShell := false } := by
  rw [createStyleResource_stylesMap]
  exact lookup_insert _ _ _ hm

theorem preinitStyleTail_stylesMap (r : Resources) (p h : String) :
    (preinitStyleTail r p h).stylesMap = r.stylesMap := rfl

theorem preinitStyleTail_idem (r : Resources) (p h : String) :
    preinitStyleTail (preinitStyleTail r p h) p h = preinitStyleTail r p h := by
  unfold preinitStyleTail precedenceSetAdd
  simp [mapUpdate_sadd_idem, sadd_idem]

theorem preinitStyle_idem (r : Resources) (href : String)
    (o : PreinitOptions) :
    preinitStyle (preinitStyle r href o) href o = preinitStyle r href o := by
  unfold preinitStyle
  cases hm : r.stylesMap.lookup href with
  | some resource =>
    simp only [hm, preinitStyleTail_stylesMap]
    rw [preinitStyleTail_idem]
  | none =>
    simp only [hm]
    rw [preinitStyleTail_stylesMap, createStyleResource_lookup _ _ _ _ hm]
    dsimp only
    rw [preinitStyleTail_idem]



theorem styleScopeAdd_stylesMap (r : Resources) (p h : String) :
    (styleScopeAdd r p h).stylesMap = r.stylesMap := by
  unfold styleScopeAdd precedenceSetAdd
  split <;> rfl

theorem styleScopeAdd_idem (r : Resources) (p h : String) :
    styleScopeAdd (styleScopeAdd r p h) p h = styleScopeAdd r p h := by
  unfold styleScopeAdd
  cases hb : r.boundaryResources with
  | some set => simp [hb, sadd_idem]
  | none => simp [hb, precedenceSetAdd, mapUpdate_sadd_idem]

theorem pushLinkStylesheetResource_idem (r : Resources)
    (href precedence : String) (rawProps : Props) :
    pushLinkStylesheetResource (pushLinkStylesheetResource r href precedence
      rawProps) href precedence rawProps =
      pushLinkStylesheetResource r href precedence rawProps := by
  unfold pushLinkStylesheetResource
  cases hm : r.stylesMap.lookup href with
  | some resource =>
    simp only [hm, styleScopeAdd_stylesMap]
    rw [styleScopeAdd_idem]
  | none =>
    simp only [hm]
    rw [styleScopeAdd_stylesMap]
    dsimp only
    rw [createStyleResource_lookup _ _ _ _ hm]
    dsimp only
    rw [styleScopeAdd_idem]

def createdScriptProps (r : Resources) (src : String) (pr : Props) : Props :=
  match r.preloadsMap.lookup src with
  | some hint => adoptPreloadPropsForScriptProps pr hint.props
  | none => pr

theorem createScriptResource_scriptsMap (r : Resources) (src : String)
    (pr : Props) :
    (createScriptResource r src pr).scriptsMap =
      r.scriptsMap ++
        [(src, { props := createdScriptProps r src pr, flushed := false })] := by
  unfold createScriptResource addScriptRecord createdScriptProps
  cases hm : r.preloadsMap.lookup src with
  | some hint => simp [hm, createPreloadResource]
  | none => simp [hm, createPreloadResource]

theorem createScriptResource_lookup (r : Resources) (src : String)
    (pr : Props) (hm : r.scriptsMap.lookup src = none) :
    (createScriptResource r src pr).scriptsMap.lookup src =
      some { props := createdScriptProps r src pr, flushed := false } := by
  rw [createScriptResource_scriptsMap]
  exact lookup_insert _ _ _ hm

theorem preinitScript_idem (r : Resources) (src : String)
    (o : PreinitOptions) :
    preinitScript (preinitScript r src o) src o = preinitScript r src o := by
  unfold preinitScript
  cases hm : r.scriptsMap.lookup src with
  | some v => simp [hm]
  | none =>
    simp only [hm]
    rw [createScriptResource_lookup _ _ _ hm]

theorem preinitImpl_idem (r : Resources) (href : String)
    (o : PreinitOptions) :
    preinitImpl (preinitImpl r href o) href o = preinitImpl r href o := by
  by_cases hh : href = ""
  · simp [preinitImpl, hh]
  · by_cases h1 : o.rAs = "style"
    · simp [preinitImpl, hh, h1, preinitStyle_idem]
    · by_cases h2 : o.rAs = "script"
      · simp [preinitImpl, hh, h1, h2, preinitScript_idem]
      · simp [preinitImpl, hh, h1, h2]

theorem resourcesFromScript_idem (r : Resources) (props : Props) :
    resourcesFromScript (resourcesFromScript r props) props =
      resourcesFromScript r props := by
  unfold resourcesFromScript
  cases hs : props.src with
  | none => rfl
  | some src =>
    by_cases hz : src = ""
    · simp [hz]
    · simp only [if_neg hz]
      cases ha : props.async with
      | false => simp
      | true =>
        simp only [if_pos rfl]
        cases hd : (props.onLoad || props.onError) with
        | true =>
          simp only [if_pos rfl]
          cases hm : r.preloadsMap.lookup src with
          | some v => simp [hm]
          | none =>
            simp [hm, createPreloadResource_lookup _ _ _ _ hm]
        | false =>
          simp only [Bool.false_eq_true, if_neg]
          cases hm : r.scriptsMap.lookup src with
          | some v => simp [hm]
          | none =>
            simp [hm, createScriptResource_lookup _ _ _ hm]



/-- Is this chunk a resource tag (link / script / self-closing) for the
given URL? -/
def chunkForHref (u : String) : Chunk → Bool
  | Chunk.linkTag p => p.href = some u
  | Chunk.selfClosing _ p => p.href = some u
  | Chunk.scriptTag p => p.src = some u
  | _ => false

def countTagsForHref (u : String) (l : List Chunk) : Nat :=
  (l.filter (chunkForHref u)).length

/-- C1: every registration route of a resource URL (a stylesheet `<link>`
with precedence, an async `<script src>`, a `preload(u, options)` call, a
`preinit(u, options)` call) is idempotent on the registry — re-registering
the same URL reuses the existing `preloadsMap`/`stylesMap`/`scriptsMap`
record instead of creating a duplicate — and flushing a registry holding a
single registration of `u` of any of these kinds emits exactly one resource
tag for `u`. -/
theorem c1_registration_idempotent_single_flush_tag
    (resources : Resources) (u P : String) (hu : ¬u = "")
    (popts : PreloadOptions) (iopts : PreinitOptions)
    (rawProps sprops : Props) :
    (preload (preload resources u popts) u popts =
      preload resources u popts) ∧
    (preinitImpl (preinitImpl resources u iopts) u iopts =
      preinitImpl resources u iopts) ∧
    (pushLinkStylesheetResource
        (pushLinkStylesheetResource resources u P rawProps) u P rawProps =
      pushLinkStylesheetResource resources u P rawProps) ∧
    (resourcesFromScript (resourcesFromScript resources sprops) sprops =
      resourcesFromScript resources sprops) ∧
    countTagsForHref u
      (writeInitialResources (preload createResources u { rAs := "font" })
        {} false).1 = 1 ∧
    countTagsForHref u
      (writeInitialResources (preinitImpl createResources u { rAs := "style" })
        {} false).1 = 1 ∧
    countTagsForHref u
      (writeInitialResources
        (preinitImpl createResources u { rAs := "script" }) {} false).1 = 1 ∧
    countTagsForHref u
      (writeInitialResources
        (pushLinkStylesheetResource createResources u P rawProps) {}
        false).1 = 1 ∧
    countTagsForHref u
      (writeInitialResources
        (resourcesFromScript createResources
          { sprops with
              src := some u, async := true, onLoad := false,
              onError := false }) {} false).1 = 1 := by
  refine ⟨preload_idem resources u popts, preinitImpl_idem resources u iopts,
    pushLinkStylesheetResource_idem resources u P rawProps,
    resourcesFromScript_idem resources sprops, ?_, ?_, ?_, ?_, ?_⟩
  · simp [writeInitialResources, externalRuntimePreinit, flushPreloadsNoCheck,
      flushPreloadsChecked, flushScripts, flushPrecedences, flushStyleInShell,
      setPreloadFlushed, mapUpdate, sadd, preload, preloadEnsure,
      preloadClassify, createPreloadResource, preloadPropsFromPreloadOptions,
      countTagsForHref, chunkForHref, List.lookup, createResources, hu]
  · simp [writeInitialResources, externalRuntimePreinit, flushPreloadsNoCheck,
      flushPreloadsChecked, flushScripts, flushPrecedences, flushStyleInShell,
      setPreloadFlushed, mapUpdate, sadd, preinitImpl, preinitStyle,
      preinitStyleTail, precedenceSetAdd, createStyleResource, addStyleRecord,
      ensurePrecedenceBucket, createPreloadResource,
      preloadAsStylePropsFromProps, stylePropsFromPreinitOptions,
      countTagsForHref, chunkForHref, List.lookup, createResources, hu]
  · simp [writeInitialResources, externalRuntimePreinit, flushPreloadsNoCheck,
      flushPreloadsChecked, flushScripts, flushPrecedences, flushStyleInShell,
      setPreloadFlushed, mapUpdate, sadd, preinitImpl, preinitScript,
      createScriptResource, addScriptRecord, createPreloadResource,
      preloadAsScriptPropsFromProps, scriptPropsFromPreinitOptions,
      countTagsForHref, chunkForHref, List.lookup, createResources, hu]
  · simp [writeInitialResources, externalRuntimePreinit, flushPreloadsNoCheck,
      flushPreloadsChecked, flushScripts, flushPrecedences, flushStyleInShell,
      setPreloadFlushed, mapUpdate, sadd, pushLinkStylesheetResource,
      styleScopeAdd, precedenceSetAdd, createStyleResource, addStyleRecord,
      ensurePrecedenceBucket, createPreloadResource,
      preloadAsStylePropsFromProps, stylePropsFromRawProps,
      countTagsForHref, chunkForHref, List.lookup, createResources, hu]
  · simp [writeInitialResources, externalRuntimePreinit, flushPreloadsNoCheck,
      flushPreloadsChecked, flushScripts, flushPrecedences, flushStyleInShell,
      setPreloadFlushed, mapUpdate, sadd, resourcesFromScript,
      createScriptResource, addScriptRecord, createPreloadResource,
      preloadAsScriptPropsFromProps, scriptPropsFromRawProps,
      countTagsForHref, chunkForHref, List.lookup, createResources, hu]

theorem c1_registration_idempotent_single_flush_tag_witness :
    countTagsForHref "x"
      (writeInitialResources (preload createResources "x" { rAs := "font" })
        {} false).1 = 1 :=
  (c1_registration_idempotent_single_flush_tag createResources "x" "default"
    (by decide) { rAs := "font" } { rAs := "style" } {} {}).2.2.2.2.1

/-! ## Document structure: `writePreamble` / `writePostamble`
(`enableFloat = true` branches). -/

/-- The open section of `writePreamble`: flush the buffered (or
synthesized, when `requiresEmbedding`) `<html>` / `<head>` open tags, once
per response (`flushed = NONE`). -/
def preambleOpen (rs : ResponseState) : List Chunk × ResponseState :=
  if rs.flushed = NONE then
    let stH :=
      if rs.htmlChunks ≠ [] then
        (rs.htmlChunks, { rs with flushed := rs.flushed ||| HTML })
      else if rs.requiresEmbedding then
        ([DOCTYPE, startChunkForTag "html", endOfStartTag],
          { rs with flushed := rs.flushed ||| HTML })
      else ([], rs)
    let rs := stH.2
    let stHd :=
      if rs.headChunks ≠ [] then
        (rs.headChunks, { rs with flushed := rs.flushed ||| HEAD })
      else if rs.flushed &&& HTML ≠ 0 then
        ([startChunkForTag "head", endOfStartTag],
          { rs with flushed := rs.flushed ||| HEAD })
      else ([], rs)
    (stH.1 ++ stHd.1, stHd.2)
  else ([], rs)

/-- The hoistable/head-close/body tail of `writePreamble`, applied to the
response state after the open section and the charset drain. -/
def preambleTail (rs : ResponseState) : List Chunk × ResponseState :=
  let hoistOut := rs.hoistableChunks
  let rs := { rs with hoistableChunks := [] }
  let headCloseOut :=
    if rs.rendered &&& HEAD = NONE ∧ rs.flushed &&& HEAD ≠ NONE then
      [endTag1, Chunk.str "head", endTag2]
    else []
  let stB :=
    if rs.requiresEmbedding ∧ rs.rendered &&& HTML_HEAD_OR_BODY = NONE then
      ([startChunkForTag "body", endOfStartTag],
        { rs with flushed := rs.flushed ||| BODY })
    else ([], { rs with flushed := rs.flushed ||| (rs.rendered &&& BODY) })
  (hoistOut ++ headCloseOut ++ stB.1, stB.2)

/-- `writePreamble`: the open section, then drain the charset chunks,
write the initial resources, and finish with the hoistable / head-close /
body tail.  Returns the emitted chunks with the mutated registry and
response state. -/
def writePreamble (resources : Resources) (rs : ResponseState)
    (willEmitInstructions : Bool) :
    List Chunk × Resources × ResponseState :=
  let op := preambleOpen rs
  let charsetOut := op.2.charsetChunks
  let rs := { op.2 with charsetChunks := [] }
  let res := writeInitialResources resources rs willEmitInstructions
  let tl := preambleTail rs
  (op.1 ++ charsetOut ++ res.1 ++ tl.1, res.2, tl.2)

/-- `writePostamble`: `</body>` if a body was flushed, then `</html>` if an
html was flushed. -/
def writePostamble (rs : ResponseState) : List Chunk :=
  (if rs.flushed &&& BODY ≠ NONE then [endTag1, Chunk.str "body", endTag2]
   else []) ++
  (if rs.flushed &&& HTML ≠ NONE then [endTag1, Chunk.str "html", endTag2]
   else [])

/-- C4 counterexample: on a response without `documentEmbedding`
(`requiresEmbedding = false`) and with nothing rendered, `writePreamble`
synthesizes no wrapper tags at all and `writePostamble` closes nothing, so
the emitted document is empty rather than the minimal
`<html><head></head><body></body></html>` skeleton the claim requires for
every response. -/
theorem c4_no_embedding_empty_output_counterexample :
    (writePreamble createResources {} false).1 = [] ∧
    writePostamble (writePreamble createResources {} false).2.2 = [] ∧
    joinStrChunks ((writePreamble createResources {} false).1 ++
      writePostamble (writePreamble createResources {} false).2.2) ≠
      some "<html><head></head><body></body></html>" := by
  decide

/-- C4 (amended): for every response in document-embedding mode
(`requiresEmbedding = true`) on which no content was rendered (rendered and
flushed flags unset, empty buffered html/head/charset/hoistable chunks,
empty resource registry, no external runtime), `writePreamble` followed by
`writePostamble` emits exactly
`<!DOCTYPE html><html><head></head><body></body></html>` — the minimally
well-formed skeleton, modulo the DOCTYPE. -/
theorem c4_preamble_postamble_skeleton (resources : Resources)
    (rs : ResponseState) (will : Bool)
    (hrendered : rs.rendered = NONE) (hflushed : rs.flushed = NONE)
    (hhtml : rs.htmlChunks = []) (hhead : rs.headChunks = [])
    (hcharset : rs.charsetChunks = []) (hhoist : rs.hoistableChunks = [])
    (hembed : rs.requiresEmbedding = true)
    (hext : rs.externalRuntimeSrc = none)
    (hbases : resources.bases = []) (hprec : resources.preconnects = [])
    (hfonts : resources.fontPreloads = [])
    (hprecs : resources.precedences = [])
    (husp : resources.usedStylePreloads = [])
    (hscripts : resources.scripts = [])
    (husc : resources.usedScriptPreloads = [])
    (hesp : resources.explicitStylePreloads = [])
    (hexs : resources.explicitScriptPreloads = [])
    (hheads : resources.headResources = []) :
    joinStrChunks ((writePreamble resources rs will).1 ++
      writePostamble (writePreamble resources rs will).2.2) =
      some "<!DOCTYPE html><html><head></head><body></body></html>" := by
  simp [writePreamble, preambleOpen, preambleTail, writePostamble,
    writeInitialResources,
    externalRuntimePreinit, flushPreloadsNoCheck, flushPreloadsChecked,
    flushScripts, flushPrecedences, joinStrChunks, DOCTYPE, startChunkForTag,
    endOfStartTag, endTag1, endTag2, NONE, HTML, HEAD, BODY,
    HTML_HEAD_OR_BODY, hrendered, hflushed, hhtml, hhead, hcharset, hhoist,
    hembed, hext, hbases, hprec, hfonts, hprecs, husp, hscripts, husc, hesp,
    hexs, hheads]

theorem c4_preamble_postamble_skeleton_witness :
    joinStrChunks
      ((writePreamble createResources { requiresEmbedding := true } false).1
        ++ writePostamble
          (writePreamble createResources { requiresEmbedding := true }
            false).2.2) =
      some "<!DOCTYPE html><html><head></head><body></body></html>" :=
  c4_preamble_postamble_skeleton createResources
    { requiresEmbedding := true } false rfl rfl rfl rfl rfl rfl rfl rfl rfl
    rfl rfl rfl rfl rfl rfl rfl rfl rfl

/-- C2 is violated by the code: a font preload that is registered again
after it was flushed is re-added to the `fontPreloads` queue, and the
font-preload flush loop elides the `flushed` check, so the second flush
re-emits the tag of a record whose `flushed` flag is already `true`.  The
trace evaluates `preload`, `writeInitialResources`, `preload`,
`writeResources` on the same URL and observes both the stale `flushed`
flag and the duplicate emission. -/
theorem c2_font_preload_reflushed_after_second_preload :
    (preload
        (writeInitialResources
          (preload createResources "font.woff" { rAs := "font" }) {}
          false).2 "font.woff" { rAs := "font" }).preloadsMap.lookup
        "font.woff" =
      some { rAs := "font",
             props := preloadPropsFromPreloadOptions "font.woff" "font"
               { rAs := "font" },
             flushed := true } ∧
    countTagsForHref "font.woff"
      (writeInitialResources
        (preload createResources "font.woff" { rAs := "font" }) {}
        false).1 = 1 ∧
    countTagsForHref "font.woff"
      (writeResources
        (preload
          (writeInitialResources
            (preload createResources "font.woff" { rAs := "font" }) {}
            false).2 "font.woff" { rAs := "font" }) {} false).1 = 1 := by
  decide

end ReactFizz

namespace ReactFizz

/-- Modelled from the spec (claim C3 as stated): flushing only the
first-seen stylesheet precedence group, eagerly, marking it in-shell. -/
def flushFirstPrecedenceOnly (st : Resources × List Chunk) :
    Resources × List Chunk :=
  let resources := st.1
  if resources.firstPrecedence ≠ "" then
    match resources.precedences.lookup resources.firstPrecedence with
    | some pset =>
      if pset ≠ [] then
        let acc2 := pset.foldl flushStyleInShell st
        ({ acc2.1 with
            precedences := mapUpdate acc2.1.precedences
              resources.firstPrecedence (fun _ => []) }, acc2.2)
      else st
    | none => st
  else st

/-- Modelled from the spec (claim C3 as stated): the claimed preamble
resource-flush order — bases, preconnects, font preloads, the first-seen
stylesheet precedence group only, used style preloads, scripts, used script
preloads, explicit style preloads, explicit script preloads, head
resources. -/
def claimedInitialResourcesOut (resources : Resources) (rs : ResponseState)
    (willEmitInstructions : Bool) : List Chunk × Resources :=
  let resources := externalRuntimePreinit resources rs willEmitInstructions
  let target := resources.bases.map (fun p => Chunk.selfClosing "base" p)
  let resources := { resources with bases := [] }
  let target := target ++ resources.preconnects.map Chunk.linkTag
  let resources := { resources with preconnects := [] }
  let (resources, target) :=
    flushPreloadsNoCheck (resources, target) resources.fontPreloads
  let resources := { resources with fontPreloads := [] }
  let (resources, target) := flushFirstPrecedenceOnly (resources, target)
  let (resources, target) :=
    flushPreloadsChecked (resources, target) resources.usedStylePreloads
  let resources := { resources with usedStylePreloads := [] }
  let (resources, target) := flushScripts (resources, target)
    resources.scripts
  let resources := { resources with scripts := [] }
  let (resources, target) :=
    flushPreloadsChecked (resources, target) resources.usedScriptPreloads
  let resources := { resources with usedScriptPreloads := [] }
  let (resources, target) :=
    flushPreloadsChecked (resources, target) resources.explicitStylePreloads
  let resources := { resources with explicitStylePreloads := [] }
  let (resources, target) :=
    flushPreloadsChecked (resources, target) resources.explicitScriptPreloads
  let resources := { resources with explicitScriptPreloads := [] }
  let target := target ++ resources.headResources.map headResourceChunk
  let resources := { resources with headResources := [] }
  (target, resources)

theorem c3_first_precedence_only_counterexample :
    (writePreamble
      (preinitImpl
        (preinitImpl createResources "a.css"
          { rAs := "style", precedence := some "p1" })
        "b.css" { rAs := "style", precedence := some "p2" }) {} false).1 ≠
    (claimedInitialResourcesOut
      (preinitImpl
        (preinitImpl createResources "a.css"
          { rAs := "style", precedence := some "p1" })
        "b.css" { rAs := "style", precedence := some "p2" }) {} false).1 := by
  decide

end ReactFizz

namespace ReactFizz

/-- Folds whose step appends output to the accumulated target and whose
state update ignores the target split into state and output. -/
theorem foldl_step_split {σ κ : Type}
    (step : (σ × List Chunk) → κ → (σ × List Chunk))
    (hstep : ∀ s t h, step (s, t) h =
      ((step (s, []) h).1, t ++ (step (s, []) h).2)) :
    ∀ (hs : List κ) (s : σ) (t : List Chunk),
      hs.foldl step (s, t) =
        ((hs.foldl step (s, [])).1, t ++ (hs.foldl step (s, [])).2) := by
  intro hs
  induction hs with
  | nil => intro s t; simp
  | cons h rest ih =>
    intro s t
    simp only [List.foldl_cons]
    rw [hstep s t h]
    cases hsp : step (s, []) h with
    | mk s1 t1 =>
      rw [ih s1 (t ++ t1), ih s1 t1]
      simp

theorem flushPreloadsNoCheck_split (r : Resources) (t : List Chunk)
    (hs : List String) :
    flushPreloadsNoCheck (r, t) hs =
      ((flushPreloadsNoCheck (r, []) hs).1,
        t ++ (flushPreloadsNoCheck (r, []) hs).2) := by
  unfold flushPreloadsNoCheck
  apply foldl_step_split
  intro s t2 h
  cases hm : s.preloadsMap.lookup h with
  | none => simp [hm]
  | some v => simp [hm]

theorem flushPreloadsChecked_split (r : Resources) (t : List Chunk)
    (hs : List String) :
    flushPreloadsChecked (r, t) hs =
      ((flushPreloadsChecked (r, []) hs).1,
        t ++ (flushPreloadsChecked (r, []) hs).2) := by
  unfold flushPreloadsChecked
  apply foldl_step_split
  intro s t2 h
  cases hm : s.preloadsMap.lookup h with
  | none => simp [hm]
  | some v =>
    by_cases hf : v.flushed <;> simp [hm, hf]

theorem flushScripts_split (r : Resources) (t : List Chunk)
    (hs : List String) :
    flushScripts (r, t) hs =
      ((flushScripts (r, []) hs).1, t ++ (flushScripts (r, []) hs).2) := by
  unfold flushScripts
  apply foldl_step_split
  intro s t2 h
  cases hm : s.scriptsMap.lookup h with
  | none => simp [hm]
  | some v => simp [hm]

theorem flushStyleInShell_split (r : Resources) (t : List Chunk)
    (hs : List String) :
    hs.foldl flushStyleInShell (r, t) =
      ((hs.foldl flushStyleInShell (r, [])).1,
        t ++ (hs.foldl flushStyleInShell (r, [])).2) := by
  apply foldl_step_split
  intro s t2 h
  unfold flushStyleInShell
  cases hm : s.stylesMap.lookup h with
  | none => simp [hm]
  | some v =>
    by_cases hf : v.flushed <;> simp [hm, hf]

theorem flushPrecedences_split (r : Resources) (t : List Chunk)
    (fp : String) (ff : Bool) (gs : List (String × List String)) :
    flushPrecedences (r, t) fp ff gs =
      ((flushPrecedences (r, []) fp ff gs).1,
        t ++ (flushPrecedences (r, []) fp ff gs).2) := by
  unfold flushPrecedences
  apply foldl_step_split
  intro s t2 pp
  split_ifs with h1 h2 <;>
    simp [flushStyleInShell_split s t2 pp.2]

end ReactFizz

namespace ReactFizz

/-- Zero-target form of `flushPreloadsNoCheck`. -/
def flushPreloadsNoCheckZ (r : Resources) (hs : List String) :
    Resources × List Chunk :=
  flushPreloadsNoCheck (r, []) hs

/-- Zero-target form of `flushPreloadsChecked`. -/
def flushPreloadsCheckedZ (r : Resources) (hs : List String) :
    Resources × List Chunk :=
  flushPreloadsChecked (r, []) hs

/-- Zero-target form of `flushScripts`. -/
def flushScriptsZ (r : Resources) (hs : List String) :
    Resources × List Chunk :=
  flushScripts (r, []) hs

/-- Zero-target form of `flushPrecedences`. -/
def flushPrecedencesZ (r : Resources) (fp : String) (ff : Bool)
    (gs : List (String × List String)) : Resources × List Chunk :=
  flushPrecedences (r, []) fp ff gs

theorem flushPreloadsNoCheck_splitZ (r : Resources) (t : List Chunk)
    (hs : List String) :
    flushPreloadsNoCheck (r, t) hs =
      ((flushPreloadsNoCheckZ r hs).1, t ++ (flushPreloadsNoCheckZ r hs).2) :=
  flushPreloadsNoCheck_split r t hs

theorem flushPreloadsChecked_splitZ (r : Resources) (t : List Chunk)
    (hs : List String) :
    flushPreloadsChecked (r, t) hs =
      ((flushPreloadsCheckedZ r hs).1, t ++ (flushPreloadsCheckedZ r hs).2) :=
  flushPreloadsChecked_split r t hs

theorem flushScripts_splitZ (r : Resources) (t : List Chunk)
    (hs : List String) :
    flushScripts (r, t) hs =
      ((flushScriptsZ r hs).1, t ++ (flushScriptsZ r hs).2) :=
  flushScripts_split r t hs

theorem flushPrecedences_splitZ (r : Resources) (t : List Chunk)
    (fp : String) (ff : Bool) (gs : List (String × List String)) :
    flushPrecedences (r, t) fp ff gs =
      ((flushPrecedencesZ r fp ff gs).1,
        t ++ (flushPrecedencesZ r fp ff gs).2) :=
  flushPrecedences_split r t fp ff gs

/-- Section drain: the `<base>` queue. -/
def drainBases (r : Resources) : List Chunk × Resources :=
  (r.bases.map (fun p => Chunk.selfClosing "base" p), { r with bases := [] })

/-- Section drain: the preconnect/dns-prefetch queue. -/
def drainPreconnects (r : Resources) : List Chunk × Resources :=
  (r.preconnects.map Chunk.linkTag, { r with preconnects := [] })

/-- Section drain: font preloads (no flushed check, per the source). -/
def drainFontPreloads (r : Resources) : List Chunk × Resources :=
  ((flushPreloadsNoCheckZ r r.fontPreloads).2,
    { (flushPreloadsNoCheckZ r r.fontPreloads).1 with fontPreloads := [] })

/-- Section drain: all stylesheet precedence groups, with placeholders. -/
def drainPrecedences (r : Resources) (fp : String) (ff : Bool) :
    List Chunk × Resources :=
  ((flushPrecedencesZ r fp ff r.precedences).2,
    (flushPrecedencesZ r fp ff r.precedences).1)

/-- Section drain: style preloads used by flushed stylesheets. -/
def drainUsedStylePreloads (r : Resources) : List Chunk × Resources :=
  ((flushPreloadsCheckedZ r r.usedStylePreloads).2,
    { (flushPreloadsCheckedZ r r.usedStylePreloads).1 with
        usedStylePreloads := [] })

/-- Section drain: managed script resources. -/
def drainScriptsQueue (r : Resources) : List Chunk × Resources :=
  ((flushScriptsZ r r.scripts).2,
    { (flushScriptsZ r r.scripts).1 with scripts := [] })

/-- Section drain: script preloads used by flushed scripts. -/
def drainUsedScriptPreloads (r : Resources) : List Chunk × Resources :=
  ((flushPreloadsCheckedZ r r.usedScriptPreloads).2,
    { (flushPreloadsCheckedZ r r.usedScriptPreloads).1 with
        usedScriptPreloads := [] })

/-- Section drain: explicitly preloaded style preloads. -/
def drainExplicitStylePreloads (r : Resources) : List Chunk × Resources :=
  ((flushPreloadsCheckedZ r r.explicitStylePreloads).2,
    { (flushPreloadsCheckedZ r r.explicitStylePreloads).1 with
        explicitStylePreloads := [] })

/-- Section drain: explicitly preloaded script preloads. -/
def drainExplicitScriptPreloads (r : Resources) : List Chunk × Resources :=
  ((flushPreloadsCheckedZ r r.explicitScriptPreloads).2,
    { (flushPreloadsCheckedZ r r.explicitScriptPreloads).1 with
        explicitScriptPreloads := [] })

/-- Section drain: title/meta/link head resources. -/
def drainHeadResources (r : Resources) : List Chunk × Resources :=
  (r.headResources.map headResourceChunk, { r with headResources := [] })

/-- The amended flush order: each section drains from the state left by the
previous one, and the emitted chunk segments concatenate in section order. -/
def amendedFlushPipeline (resources : Resources) (rs : ResponseState)
    (willEmitInstructions : Bool) : List Chunk × Resources :=
  let r0 := externalRuntimePreinit resources rs willEmitInstructions
  let fp := r0.firstPrecedence
  let ff := r0.firstPrecedenceFlushed
  let s1 := drainBases r0
  let s2 := drainPreconnects s1.2
  let s3 := drainFontPreloads s2.2
  let s4 := drainPrecedences s3.2 fp ff
  let s5 := drainUsedStylePreloads s4.2
  let s6 := drainScriptsQueue s5.2
  let s7 := drainUsedScriptPreloads s6.2
  let s8 := drainExplicitStylePreloads s7.2
  let s9 := drainExplicitScriptPreloads s8.2
  let s10 := drainHeadResources s9.2
  (s1.1 ++ s2.1 ++ s3.1 ++ s4.1 ++ s5.1 ++ s6.1 ++ s7.1 ++ s8.1 ++
    s9.1 ++ s10.1, s10.2)

theorem writeInitialResources_eq_amended (resources : Resources)
    (rs : ResponseState) (will : Bool) :
    writeInitialResources resources rs will =
      amendedFlushPipeline resources rs will := by
  unfold writeInitialResources amendedFlushPipeline drainBases
    drainPreconnects drainFontPreloads drainPrecedences
    drainUsedStylePreloads drainScriptsQueue drainUsedScriptPreloads
    drainExplicitStylePreloads drainExplicitScriptPreloads
    drainHeadResources
  simp only [flushPreloadsNoCheck_splitZ, flushPrecedences_splitZ,
    flushPreloadsChecked_splitZ, flushScripts_splitZ]

end ReactFizz


namespace ReactFizz

/-- C3 (amended): `writePreamble` flushes resources in one deterministic
fixed order — the open section, the buffered charset chunks, then the
registry sections bases, preconnects, font preloads, ALL stylesheet
precedence groups (placeholders for groups without new members), used
style preloads, scripts, used script preloads, explicit style preloads,
explicit script preloads, head resources — and `writeInitialResources`
equals the section-drain pipeline in exactly that order.  (The claim as
stated, flushing only the first-seen precedence group, is refuted by
`c3_first_precedence_only_counterexample`.) -/
theorem c3_preamble_fixed_flush_order (resources : Resources)
    (rs : ResponseState) (will : Bool) :
    writeInitialResources resources rs will =
      amendedFlushPipeline resources rs will ∧
    (writePreamble resources rs will).1 =
      (preambleOpen rs).1 ++ (preambleOpen rs).2.charsetChunks ++
        (amendedFlushPipeline resources
          { (preambleOpen rs).2 with charsetChunks := [] } will).1 ++
        (preambleTail { (preambleOpen rs).2 with charsetChunks := [] }).1 := by
  refine ⟨writeInitialResources_eq_amended resources rs will, ?_⟩
  unfold writePreamble
  dsimp only
  rw [writeInitialResources_eq_amended]

end ReactFizz

namespace ReactFizz

/-- Lowercase hex digit, as produced by the ECMAScript `QuoteJSONString`
algorithm (`UnicodeEscape`) for control characters. -/
def jsHexDigit (n : Nat) : Char :=
  if n < 10 then Char.ofNat (48 + n) else Char.ofNat (87 + n)

/-- Model of the ECMAScript `JSON.stringify` encoding of one character of
a string (`QuoteJSONString`): backslash-escapes for `"` and `\\`, the
two-character escapes for backspace/tab/newline/formfeed/return, a
`\\u00XX` escape for the remaining control characters, and every other
character verbatim (in particular `<`, `>`, `&`, U+2028 and U+2029 pass
through unescaped, which is why the instruction-script escapers exist). -/
def jsonEscapeChar (c : Char) : List Char :=
  if c = Char.ofNat 34 then [Char.ofNat 92, Char.ofNat 34]
  else if c = Char.ofNat 92 then [Char.ofNat 92, Char.ofNat 92]
  else if c.toNat = 8 then [Char.ofNat 92, 'b']
  else if c.toNat = 9 then [Char.ofNat 92, 't']
  else if c.toNat = 10 then [Char.ofNat 92, 'n']
  else if c.toNat = 12 then [Char.ofNat 92, 'f']
  else if c.toNat = 13 then [Char.ofNat 92, 'r']
  else if c.toNat < 32 then
    [Char.ofNat 92, 'u', '0', '0', jsHexDigit (c.toNat / 16),
      jsHexDigit (c.toNat % 16)]
  else [c]

/-- Model of `JSON.stringify(input)` for a string input: the escaped
characters wrapped in double quotes. -/
def jsonStringifyString (l : List Char) : List Char :=
  Char.ofNat 34 :: l.flatMap jsonEscapeChar ++ [Char.ofNat 34]

/-- The replacement pass of `escapeJSStringsForInstructionScripts`: the
regex `[<  ]` with the `\uXXXX` replacements (a global
single-character-class regex replace is a per-character flat map). -/
def instructionStrReplace (c : Char) : List Char :=
  if c = '<' then [Char.ofNat 92, 'u', '0', '0', '3', 'c']
  else if c.toNat = 8232 then [Char.ofNat 92, 'u', '2', '0', '2', '8']
  else if c.toNat = 8233 then [Char.ofNat 92, 'u', '2', '0', '2', '9']
  else [c]

/-- `escapeJSStringsForInstructionScripts(input)`:
`JSON.stringify(input).replace(regexForJSStringsInInstructionScripts, ...)`. -/
def escapeJSStringsForInstructionScripts (l : List Char) : List Char :=
  (jsonStringifyString l).flatMap instructionStrReplace

/-- The replacement pass of `escapeJSObjectForInstructionScripts`: the
regex `[&><  ]` with the `\uXXXX` replacements. -/
def instructionObjReplace (c : Char) : List Char :=
  if c = '&' then [Char.ofNat 92, 'u', '0', '0', '2', '6']
  else if c = '>' then [Char.ofNat 92, 'u', '0', '0', '3', 'e']
  else if c = '<' then [Char.ofNat 92, 'u', '0', '0', '3', 'c']
  else if c.toNat = 8232 then [Char.ofNat 92, 'u', '2', '0', '2', '8']
  else if c.toNat = 8233 then [Char.ofNat 92, 'u', '2', '0', '2', '9']
  else [c]

/-- `escapeJSObjectForInstructionScripts(input)` applied to a string
input (`JSON.stringify` of the string, then the object-form replace). -/
def escapeJSObjectForInstructionScripts (l : List Char) : List Char :=
  (jsonStringifyString l).flatMap instructionObjReplace

/-- A character that may not survive raw in an inline script body per the
string-form escaper: `<`, U+2028, U+2029. -/
def bannedInScriptStr (c : Char) : Bool :=
  c = '<' || c.toNat = 8232 || c.toNat = 8233

/-- A character that may not survive raw per the object-form escaper:
additionally `&` and `>`. -/
def bannedInScriptObj (c : Char) : Bool :=
  c = '&' || c = '>' || c = '<' || c.toNat = 8232 || c.toNat = 8233

theorem instructionStrReplace_clean (c x : Char)
    (hx : x ∈ instructionStrReplace c) : bannedInScriptStr x = false := by
  unfold instructionStrReplace at hx
  split_ifs at hx with h1 h2 h3 <;>
    simp only [List.mem_cons, List.not_mem_nil, or_false] at hx
  · rcases hx with rfl|rfl|rfl|rfl|rfl|rfl <;> decide
  · rcases hx with rfl|rfl|rfl|rfl|rfl|rfl <;> decide
  · rcases hx with rfl|rfl|rfl|rfl|rfl|rfl <;> decide
  · subst hx
    simp [bannedInScriptStr, h1, h2, h3]

theorem instructionObjReplace_clean (c x : Char)
    (hx : x ∈ instructionObjReplace c) : bannedInScriptObj x = false := by
  unfold instructionObjReplace at hx
  split_ifs at hx with h1 h2 h3 h4 h5 <;>
    simp only [List.mem_cons, List.not_mem_nil, or_false] at hx
  · rcases hx with rfl|rfl|rfl|rfl|rfl|rfl <;> decide
  · rcases hx with rfl|rfl|rfl|rfl|rfl|rfl <;> decide
  · rcases hx with rfl|rfl|rfl|rfl|rfl|rfl <;> decide
  · rcases hx with rfl|rfl|rfl|rfl|rfl|rfl <;> decide
  · rcases hx with rfl|rfl|rfl|rfl|rfl|rfl <;> decide
  · subst hx
    simp [bannedInScriptObj, h1, h2, h3, h4, h5]

/-- C8: the instruction-script escapers return the `JSON.stringify`
encoding of the input with every `<`, U+2028, U+2029 occurrence (and, for
the object form, additionally `&` and `>`) replaced by the corresponding
`\\uXXXX` escape, so the escaped output embedded in an inline script body
contains no raw `<`, U+2028 or U+2029 character (object form: nor `&`,
`>`) and cannot terminate the script element early. -/
theorem c8_instruction_script_escapers_safe (l : List Char) :
    escapeJSStringsForInstructionScripts l =
      (jsonStringifyString l).flatMap instructionStrReplace ∧
    instructionStrReplace '<' =
      [Char.ofNat 92, 'u', '0', '0', '3', 'c'] ∧
    instructionStrReplace (Char.ofNat 8232) =
      [Char.ofNat 92, 'u', '2', '0', '2', '8'] ∧
    instructionStrReplace (Char.ofNat 8233) =
      [Char.ofNat 92, 'u', '2', '0', '2', '9'] ∧
    (escapeJSStringsForInstructionScripts l).all
      (fun c => !(bannedInScriptStr c)) = true ∧
    (escapeJSObjectForInstructionScripts l).all
      (fun c => !(bannedInScriptObj c)) = true := by
  refine ⟨rfl, by decide, by decide, by decide, ?_, ?_⟩
  · rw [List.all_eq_true]
    intro x hx
    unfold escapeJSStringsForInstructionScripts at hx
    rw [List.mem_flatMap] at hx
    obtain ⟨c, _, hxc⟩ := hx
    simp [instructionStrReplace_clean c x hxc]
  · rw [List.all_eq_true]
    intro x hx
    unfold escapeJSObjectForInstructionScripts at hx
    rw [List.mem_flatMap] at hx
    obtain ⟨c, _, hxc⟩ := hx
    simp [instructionObjReplace_clean c x hxc]

end ReactFizz

namespace ReactFizz

/-- `id.toString(16)`: lowercase hexadecimal digits of a segment id, as JS
`Number.prototype.toString(16)` renders a non-negative integer. -/
def natToHex (n : Nat) : String :=
  if h : n < 16 then String.singleton (jsHexDigit n)
  else natToHex (n / 16) ++ String.singleton (jsHexDigit (n % 16))
termination_by n
decreasing_by
  simp at h
  exact Nat.div_lt_self (by omega) (by omega)

/-- JS truthiness of a `?string` argument: present and non-empty. -/
def jsTruthy (o : Option String) : Bool :=
  match o with
  | some s => s ≠ ""
  | none => false

/-- The `sent*Function` flag of one instruction kind. -/
def sentFlag (k : InstrKind) (rs : ResponseState) : Bool :=
  match k with
  | .completeSegment => rs.sentCompleteSegmentFunction
  | .completeBoundary => rs.sentCompleteBoundaryFunction
  | .completeContainer => rs.sentCompleteContainerFunction
  | .clientRender => rs.sentClientRenderFunction
  | .styleInsertion => rs.sentStyleInsertionFunction

/-- `writeCompletedSegmentInstruction(destination, responseState, id)`:
`$RS` in script streaming format (full helper body on first use, guarded by
`sentCompleteSegmentFunction`), `<template data-ri="s">` in data format. -/
def writeCompletedSegmentInstruction (rs : ResponseState)
    (contentSegmentID : Nat) : List Chunk × ResponseState :=
  let formattedID := Chunk.str (natToHex contentSegmentID)
  if rs.streamingFormat = ScriptStreamingFormat then
    let hd :=
      if rs.sentCompleteSegmentFunction = false then
        ([Chunk.str rs.startInlineScript,
          Chunk.fnBody InstrKind.completeSegment, Chunk.str "$RS(\""],
          { rs with sentCompleteSegmentFunction := true })
      else
        ([Chunk.str rs.startInlineScript, Chunk.str "$RS(\""], rs)
    (hd.1 ++ [Chunk.str rs.segmentPre, formattedID, Chunk.str "\",\"",
      Chunk.str rs.placeholderPre, formattedID, Chunk.str "\")</script>"],
      hd.2)
  else
    ([Chunk.str "<template data-ri=\"s\" data-sid=\"",
      Chunk.str rs.segmentPre, formattedID, Chunk.str "\" data-pid=\"",
      Chunk.str rs.placeholderPre, formattedID,
      Chunk.str "\"></template>"], rs)

/-- `hasStyleResourceDependencies(boundaryResources)`: true when some style
resource of the boundary did not flush within the shell. -/
def hasStyleResourceDependencies (resources : Resources)
    (bhrefs : List String) : Bool :=
  bhrefs.any (fun h =>
    match resources.stylesMap.lookup h with
    | some r => !r.inShell
    | none => false)

/-- `writeStyleResourceDependenciesInJS(destination, boundaryResources)`:
a 2D JS array; in-shell resources are elided, already-flushed resources
contribute an href-only entry, the rest contribute a full entry and are
marked flushed (their preload hint too).  Entry payloads are modelled as
`styleDepEntry` chunks. -/
def styleDepStep (acc : List Chunk × Resources × Bool) (h : String) :
    List Chunk × Resources × Bool :=
  match acc.2.1.stylesMap.lookup h with
  | none => acc
  | some r =>
    if r.inShell then acc
    else
      let openB := Chunk.str (if acc.2.2 then "[" else ",[")
      if r.flushed then
        (acc.1 ++ [openB, Chunk.styleDepEntry h true,
          Chunk.str "]"], acc.2.1, false)
      else
        (acc.1 ++ [openB, Chunk.styleDepEntry h false, Chunk.str "]"],
          setPreloadFlushed
            { acc.2.1 with
                stylesMap := mapUpdate acc.2.1.stylesMap h (fun s =>
                  { s with flushed := true }) } h,
          false)

def writeStyleResourceDependenciesInJS (resources : Resources)
    (bhrefs : List String) : List Chunk × Resources :=
  let out := bhrefs.foldl styleDepStep ([], resources, true)
  ([Chunk.str "["] ++ out.1 ++ [Chunk.str "]"], out.2.1)

/-- The bootstrap template container of the with-styles container branch:
`<template id="bs:SEGID">bootstrap chunks</template>`, only when bootstrap
chunks exist. -/
def bootstrapContainerChunks (rs : ResponseState)
    (formattedContentID : Chunk) : List Chunk :=
  if rs.bootstrapChunks ≠ [] then
    [Chunk.str "<template id=\"bs:", Chunk.str rs.segmentPre,
      formattedContentID, Chunk.str "\">"] ++ rs.bootstrapChunks ++
      [Chunk.str "</template>"]
  else []

/-- `writeCompletedBoundaryInstruction` for a non-null boundary id: the
`$RC` / `$RK` / `$RR($RC,...)` / `$RR($RK,...)` script forms with one-shot
helper inlining, or the `data-ri="b"/"c"/"rb"/"rc"` template forms; the
container branches also emit the bootstrap chunks. -/
def writeCompletedBoundaryInstructionW (rs : ResponseState)
    (resources : Resources) (bid : BoundaryIdChunk)
    (contentSegmentID : Nat) (bhrefs : List String) :
    List Chunk × ResponseState × Resources :=
  let hasStyleDependencies := hasStyleResourceDependencies resources bhrefs
  let formattedContentID := Chunk.str (natToHex contentSegmentID)
  let isContainer := isContainerBoundary rs (some bid)
  if rs.streamingFormat = ScriptStreamingFormat then
    if hasStyleDependencies then
      let s1 :=
        if rs.sentStyleInsertionFunction = false then
          ([Chunk.fnBody InstrKind.styleInsertion],
            { rs with sentStyleInsertionFunction := true })
        else ([], rs)
      if isContainer then
        let boot := bootstrapContainerChunks rs formattedContentID
        let s2 :=
          if s1.2.sentCompleteContainerFunction = false then
            ([Chunk.fnBody InstrKind.completeContainer],
              { s1.2 with sentCompleteContainerFunction := true })
          else ([], s1.2)
        let deps := writeStyleResourceDependenciesInJS resources bhrefs
        (boot ++ [Chunk.str rs.startInlineScript] ++ s1.1 ++ s2.1 ++
          [Chunk.str "$RR($RK,\"", Chunk.str bid.text, Chunk.str "\",\"",
            Chunk.str rs.segmentPre, formattedContentID, Chunk.str "\","] ++
          deps.1 ++ [Chunk.str ")</script>"], s2.2, deps.2)
      else
        let s2 :=
          if s1.2.sentCompleteBoundaryFunction = false then
            ([Chunk.fnBody InstrKind.completeBoundary],
              { s1.2 with sentCompleteBoundaryFunction := true })
          else ([], s1.2)
        let deps := writeStyleResourceDependenciesInJS resources bhrefs
        ([Chunk.str rs.startInlineScript] ++ s1.1 ++ s2.1 ++
          [Chunk.str "$RR($RC,\"", Chunk.str bid.text, Chunk.str "\",\"",
            Chunk.str rs.segmentPre, formattedContentID, Chunk.str "\","] ++
          deps.1 ++ [Chunk.str ")</script>"], s2.2, deps.2)
    else
      if isContainer then
        let s2 :=
          if rs.sentCompleteContainerFunction = false then
            ([Chunk.fnBody InstrKind.completeContainer],
              { rs with sentCompleteContainerFunction := true })
          else ([], rs)
        ([Chunk.str rs.startInlineScript] ++ s2.1 ++
          [Chunk.str "$RK(\"", Chunk.str bid.text, Chunk.str "\",\"",
            Chunk.str rs.segmentPre, formattedContentID, Chunk.str "\"",
            Chunk.str ")</script>"] ++ rs.bootstrapChunks, s2.2, resources)
      else
        let s2 :=
          if rs.sentCompleteBoundaryFunction = false then
            ([Chunk.fnBody InstrKind.completeBoundary],
              { rs with sentCompleteBoundaryFunction := true })
          else ([], rs)
        ([Chunk.str rs.startInlineScript] ++ s2.1 ++
          [Chunk.str "$RC(\"", Chunk.str bid.text, Chunk.str "\",\"",
            Chunk.str rs.segmentPre, formattedContentID, Chunk.str "\"",
            Chunk.str ")</script>"], s2.2, resources)
  else
    if hasStyleDependencies then
      if isContainer then
        let boot := bootstrapContainerChunks rs formattedContentID
        let deps := writeStyleResourceDependenciesInJS resources bhrefs
        (boot ++ [Chunk.str "<template data-ri=\"rc\" data-bid=\"",
          Chunk.str bid.text, Chunk.str "\" data-sid=\"",
          Chunk.str rs.segmentPre, formattedContentID,
          Chunk.str "\" data-sty=\""] ++ deps.1 ++
          [Chunk.str "\"></template>"], rs, deps.2)
      else
        let deps := writeStyleResourceDependenciesInJS resources bhrefs
        ([Chunk.str "<template data-ri=\"rb\" data-bid=\"",
          Chunk.str bid.text, Chunk.str "\" data-sid=\"",
          Chunk.str rs.segmentPre, formattedContentID,
          Chunk.str "\" data-sty=\""] ++ deps.1 ++
          [Chunk.str "\"></template>"], rs, deps.2)
    else
      if isContainer then
        let boot := bootstrapContainerChunks rs formattedContentID
        (boot ++ [Chunk.str "<template data-ri=\"c\" data-bid=\"",
          Chunk.str bid.text, Chunk.str "\" data-sid=\"",
          Chunk.str rs.segmentPre, formattedContentID,
          Chunk.str "\"></template>"], rs, resources)
      else
        ([Chunk.str "<template data-ri=\"b\" data-bid=\"",
          Chunk.str bid.text, Chunk.str "\" data-sid=\"",
          Chunk.str rs.segmentPre, formattedContentID,
          Chunk.str "\"></template>"], rs, resources)

/-- `writeCompletedBoundaryInstruction`: throws on a null boundary id. -/
def writeCompletedBoundaryInstruction (rs : ResponseState)
    (resources : Resources) (boundaryID : SuspenseBoundaryID)
    (contentSegmentID : Nat) (bhrefs : List String) :
    Option (List Chunk × ResponseState × Resources) :=
  match boundaryID with
  | none => none
  | some bid =>
    some (writeCompletedBoundaryInstructionW rs resources bid
      contentSegmentID bhrefs)

end ReactFizz

namespace ReactFizz

/-- `writeStartClientRenderedSuspenseBoundary(destination, responseState,
errorDigest, errorMessage, errorComponentStack)` in production
(`__DEV__ = false`): the `<!--$!-->` marker and an error `<template>` with
only the `data-dgst` attribute (message and stack are dev-only). -/
def writeStartClientRenderedSuspenseBoundary (rs : ResponseState)
    (errorDigest errorMessage errorComponentStack : Option String) :
    List Chunk :=
  [Chunk.str "<!--$!-->", Chunk.str "<template"] ++
    (if jsTruthy errorDigest then
      [Chunk.str " data-dgst=\"",
        Chunk.str (escapeTextForBrowser (errorDigest.getD "")),
        Chunk.str "\""]
    else []) ++
    [Chunk.str "></template>"]

/-- `writeEndClientRenderedSuspenseBoundary`: the closing suspense
boundary comment marker. -/
def writeEndClientRenderedSuspenseBoundary : List Chunk :=
  [Chunk.str "<!--/$-->"]

/-- `writeClientRenderBoundaryInstruction(destination, responseState,
boundaryID, errorDigest, errorMessage, errorComponentStack)`: for the
container boundary only the (fallback) bootstrap chunks; otherwise the
`$RX` script (one-shot helper body, guarded by `sentClientRenderFunction`)
or the `data-ri="x"` template, with the escaped error arguments; `none`
models the throw on a null non-container id. -/
def writeClientRenderBoundaryInstruction (rs : ResponseState)
    (boundaryID : SuspenseBoundaryID)
    (errorDigest errorMessage errorComponentStack : Option String) :
    Option (List Chunk × ResponseState) :=
  let scriptFormat := rs.streamingFormat = ScriptStreamingFormat
  if isContainerBoundary rs boundaryID then
    some (rs.fallbackBootstrapChunks.getD rs.bootstrapChunks, rs)
  else
    match boundaryID with
    | none => none
    | some bid =>
      let hd :=
        if scriptFormat then
          if rs.sentClientRenderFunction = false then
            ([Chunk.str rs.startInlineScript,
              Chunk.fnBody InstrKind.clientRender, Chunk.str "$RX(\""],
              { rs with sentClientRenderFunction := true })
          else
            ([Chunk.str rs.startInlineScript, Chunk.str "$RX(\""], rs)
        else
          ([Chunk.str "<template data-ri=\"x\" data-bid=\""], rs)
      let idPart :=
        [Chunk.str bid.text] ++
          (if scriptFormat then [Chunk.str "\""] else [])
      let arg1 :=
        if jsTruthy errorDigest || jsTruthy errorMessage ||
            jsTruthy errorComponentStack then
          if scriptFormat then
            [Chunk.str ",", Chunk.str (String.mk
              (escapeJSStringsForInstructionScripts
                (errorDigest.getD "").toList))]
          else
            [Chunk.str "\" data-dgst=\"",
              Chunk.str (escapeTextForBrowser (errorDigest.getD ""))]
        else []
      let arg2 :=
        if jsTruthy errorMessage || jsTruthy errorComponentStack then
          if scriptFormat then
            [Chunk.str ",", Chunk.str (String.mk
              (escapeJSStringsForInstructionScripts
                (errorMessage.getD "").toList))]
          else
            [Chunk.str "\" data-msg=\"",
              Chunk.str (escapeTextForBrowser (errorMessage.getD ""))]
        else []
      let arg3 :=
        if jsTruthy errorComponentStack then
          if scriptFormat then
            [Chunk.str ",", Chunk.str (String.mk
              (escapeJSStringsForInstructionScripts
                (errorComponentStack.getD "").toList))]
          else
            [Chunk.str "\" data-stck=\"",
              Chunk.str (escapeTextForBrowser
                (errorComponentStack.getD ""))]
        else []
      let endPart :=
        if scriptFormat then [Chunk.str ")</script>"]
        else [Chunk.str "\"></template>"]
      some (hd.1 ++ idPart ++ arg1 ++ arg2 ++ arg3 ++ endPart, hd.2)

end ReactFizz


namespace ReactFizz

/-- Occurrences of the helper function body of kind `k` in a chunk list. -/
def bodyCount (k : InstrKind) (l : List Chunk) : Nat :=
  l.count (Chunk.fnBody k)

theorem bodyCount_append (k : InstrKind) (l1 l2 : List Chunk) :
    bodyCount k (l1 ++ l2) = bodyCount k l1 + bodyCount k l2 :=
  List.count_append ..

theorem styleDepStep_count (k : InstrKind)
    (acc : List Chunk × Resources × Bool) (h : String) :
    bodyCount k (styleDepStep acc h).1 = bodyCount k acc.1 := by
  unfold styleDepStep
  split
  · rfl
  · split_ifs <;> simp [bodyCount]

theorem foldl_styleDepStep_count (k : InstrKind) (bhrefs : List String)
    (acc : List Chunk × Resources × Bool) :
    bodyCount k (bhrefs.foldl styleDepStep acc).1 = bodyCount k acc.1 := by
  induction bhrefs generalizing acc with
  | nil => rfl
  | cons h rest ih =>
    simp only [List.foldl_cons]
    rw [ih, styleDepStep_count]

theorem styleDeps_count (k : InstrKind) (resources : Resources)
    (bhrefs : List String) :
    bodyCount k (writeStyleResourceDependenciesInJS resources bhrefs).1
      = 0 := by
  unfold writeStyleResourceDependenciesInJS
  dsimp only
  rw [bodyCount_append, bodyCount_append, foldl_styleDepStep_count]
  simp [bodyCount]

theorem seg_preserves (rs : ResponseState) (id : Nat) :
    (writeCompletedSegmentInstruction rs id).2.streamingFormat =
        rs.streamingFormat ∧
    (writeCompletedSegmentInstruction rs id).2.bootstrapChunks =
        rs.bootstrapChunks ∧
    (writeCompletedSegmentInstruction rs id).2.fallbackBootstrapChunks =
        rs.fallbackBootstrapChunks := by
  unfold writeCompletedSegmentInstruction
  dsimp only
  split_ifs <;> simp

theorem seg_mono (k : InstrKind) (rs : ResponseState) (id : Nat)
    (hk : sentFlag k rs = true) :
    sentFlag k (writeCompletedSegmentInstruction rs id).2 = true := by
  unfold writeCompletedSegmentInstruction
  dsimp only
  split_ifs with h1 h2 <;> cases k <;> simp_all [sentFlag]

theorem seg_count (k : InstrKind) (rs : ResponseState) (id : Nat)
    (hfmt : rs.streamingFormat = ScriptStreamingFormat) :
    bodyCount k (writeCompletedSegmentInstruction rs id).1 =
      (if sentFlag k rs = false ∧
          sentFlag k (writeCompletedSegmentInstruction rs id).2 = true
        then 1 else 0) := by
  unfold writeCompletedSegmentInstruction
  dsimp only
  rw [if_pos hfmt]
  by_cases h1 : rs.sentCompleteSegmentFunction = false <;>
    cases k <;> simp_all [sentFlag, bodyCount]

end ReactFizz

namespace ReactFizz

theorem styleDeps_count_raw (k : InstrKind) (resources : Resources)
    (bhrefs : List String) :
    List.count (Chunk.fnBody k)
      (writeStyleResourceDependenciesInJS resources bhrefs).1 = 0 :=
  styleDeps_count k resources bhrefs

theorem bootstrapContainerChunks_count_raw (k : InstrKind)
    (rs : ResponseState) (s : String)
    (hboot : List.count (Chunk.fnBody k) rs.bootstrapChunks = 0) :
    List.count (Chunk.fnBody k)
      (bootstrapContainerChunks rs (Chunk.str s)) = 0 := by
  unfold bootstrapContainerChunks
  split_ifs <;> simp [List.count_append, List.count_cons, hboot]

theorem boundary_preserves (rs : ResponseState) (resources : Resources)
    (bid : BoundaryIdChunk) (segID : Nat) (bhrefs : List String) :
    (writeCompletedBoundaryInstructionW rs resources bid segID
        bhrefs).2.1.streamingFormat = rs.streamingFormat ∧
    (writeCompletedBoundaryInstructionW rs resources bid segID
        bhrefs).2.1.bootstrapChunks = rs.bootstrapChunks ∧
    (writeCompletedBoundaryInstructionW rs resources bid segID
        bhrefs).2.1.fallbackBootstrapChunks =
      rs.fallbackBootstrapChunks := by
  unfold writeCompletedBoundaryInstructionW
  dsimp only
  split_ifs <;> simp

theorem boundary_mono (k : InstrKind) (rs : ResponseState)
    (resources : Resources) (bid : BoundaryIdChunk) (segID : Nat)
    (bhrefs : List String) (hk : sentFlag k rs = true) :
    sentFlag k (writeCompletedBoundaryInstructionW rs resources bid segID
      bhrefs).2.1 = true := by
  unfold writeCompletedBoundaryInstructionW
  dsimp only
  split_ifs <;> cases k <;> simp_all [sentFlag]

set_option maxHeartbeats 1000000 in
theorem boundary_count (k : InstrKind) (rs : ResponseState)
    (resources : Resources) (bid : BoundaryIdChunk) (segID : Nat)
    (bhrefs : List String)
    (hfmt : rs.streamingFormat = ScriptStreamingFormat)
    (hboot : List.count (Chunk.fnBody k) rs.bootstrapChunks = 0) :
    bodyCount k (writeCompletedBoundaryInstructionW rs resources bid segID
        bhrefs).1 =
      (if sentFlag k rs = false ∧
          sentFlag k (writeCompletedBoundaryInstructionW rs resources bid
            segID bhrefs).2.1 = true
        then 1 else 0) := by
  unfold writeCompletedBoundaryInstructionW
  dsimp only
  rw [if_pos hfmt]
  split_ifs <;> cases k <;>
    simp_all [sentFlag, bodyCount, List.count_append, List.count_cons,
      styleDeps_count_raw, bootstrapContainerChunks_count_raw]

end ReactFizz

namespace ReactFizz

/-- `writeClientRenderBoundaryInstruction` at a non-null id (total form;
the source throw is unreachable there). -/
def writeClientRenderBoundaryInstructionW (rs : ResponseState)
    (bid : BoundaryIdChunk)
    (errorDigest errorMessage errorComponentStack : Option String) :
    List Chunk × ResponseState :=
  (writeClientRenderBoundaryInstruction rs (some bid) errorDigest
    errorMessage errorComponentStack).getD ([], rs)

theorem clientRender_preserves (rs : ResponseState)
    (bid : BoundaryIdChunk) (d m s : Option String) :
    (writeClientRenderBoundaryInstructionW rs bid d m
        s).2.streamingFormat = rs.streamingFormat ∧
    (writeClientRenderBoundaryInstructionW rs bid d m
        s).2.bootstrapChunks = rs.bootstrapChunks ∧
    (writeClientRenderBoundaryInstructionW rs bid d m
        s).2.fallbackBootstrapChunks = rs.fallbackBootstrapChunks := by
  unfold writeClientRenderBoundaryInstructionW
    writeClientRenderBoundaryInstruction
  dsimp only
  split_ifs <;> simp

theorem clientRender_mono (k : InstrKind) (rs : ResponseState)
    (bid : BoundaryIdChunk) (d m s : Option String)
    (hk : sentFlag k rs = true) :
    sentFlag k (writeClientRenderBoundaryInstructionW rs bid d m
      s).2 = true := by
  unfold writeClientRenderBoundaryInstructionW
    writeClientRenderBoundaryInstruction
  dsimp only
  split_ifs <;> cases k <;> simp_all [sentFlag]

set_option maxHeartbeats 1000000 in
theorem clientRender_count (k : InstrKind) (rs : ResponseState)
    (bid : BoundaryIdChunk) (d m s : Option String)
    (hfmt : rs.streamingFormat = ScriptStreamingFormat)
    (hfb : List.count (Chunk.fnBody k)
      (rs.fallbackBootstrapChunks.getD rs.bootstrapChunks) = 0) :
    bodyCount k (writeClientRenderBoundaryInstructionW rs bid d m s).1 =
      (if sentFlag k rs = false ∧
          sentFlag k (writeClientRenderBoundaryInstructionW rs bid d m
            s).2 = true
        then 1 else 0) := by
  unfold writeClientRenderBoundaryInstructionW
    writeClientRenderBoundaryInstruction
  dsimp only
  split_ifs <;> cases k <;>
    simp_all [sentFlag, bodyCount, List.count_append, List.count_cons]

end ReactFizz

namespace ReactFizz

/-- One streaming instruction write: a completed segment, a completed
boundary (container or not, with or without style dependencies), or a
client-rendered (errored) boundary. -/
inductive InstrOp where
  | seg (segID : Nat)
  | boundary (bid : BoundaryIdChunk) (segID : Nat) (bhrefs : List String)
  | clientRender (bid : BoundaryIdChunk)
      (errorDigest errorMessage errorComponentStack : Option String)

/-- Run one instruction write against the response state and registry. -/
def runInstr (st : ResponseState × Resources) (op : InstrOp) :
    List Chunk × ResponseState × Resources :=
  match op with
  | .seg segID =>
    let w := writeCompletedSegmentInstruction st.1 segID
    (w.1, w.2, st.2)
  | .boundary bid segID bhrefs =>
    writeCompletedBoundaryInstructionW st.1 st.2 bid segID bhrefs
  | .clientRender bid d m s =>
    let w := writeClientRenderBoundaryInstructionW st.1 bid d m s
    (w.1, w.2, st.2)

/-- Run a sequence of instruction writes, concatenating their output. -/
def runInstrs (st : ResponseState × Resources) :
    List InstrOp → List Chunk × ResponseState × Resources
  | [] => ([], st.1, st.2)
  | op :: rest =>
    let w := runInstr st op
    let r := runInstrs (w.2.1, w.2.2) rest
    (w.1 ++ r.1, r.2)

theorem runInstr_preserves (st : ResponseState × Resources)
    (op : InstrOp) :
    (runInstr st op).2.1.streamingFormat = st.1.streamingFormat ∧
    (runInstr st op).2.1.bootstrapChunks = st.1.bootstrapChunks ∧
    (runInstr st op).2.1.fallbackBootstrapChunks =
      st.1.fallbackBootstrapChunks := by
  cases op with
  | seg segID => exact seg_preserves st.1 segID
  | boundary bid segID bhrefs => exact boundary_preserves st.1 st.2 bid segID bhrefs
  | clientRender bid d m s => exact clientRender_preserves st.1 bid d m s

theorem runInstr_mono (k : InstrKind) (st : ResponseState × Resources)
    (op : InstrOp) (hk : sentFlag k st.1 = true) :
    sentFlag k (runInstr st op).2.1 = true := by
  cases op with
  | seg segID => exact seg_mono k st.1 segID hk
  | boundary bid segID bhrefs => exact boundary_mono k st.1 st.2 bid segID bhrefs hk
  | clientRender bid d m s => exact clientRender_mono k st.1 bid d m s hk

theorem runInstr_count (k : InstrKind) (st : ResponseState × Resources)
    (op : InstrOp)
    (hfmt : st.1.streamingFormat = ScriptStreamingFormat)
    (hboot : List.count (Chunk.fnBody k) st.1.bootstrapChunks = 0)
    (hfb : List.count (Chunk.fnBody k)
      (st.1.fallbackBootstrapChunks.getD st.1.bootstrapChunks) = 0) :
    bodyCount k (runInstr st op).1 =
      (if sentFlag k st.1 = false ∧
          sentFlag k (runInstr st op).2.1 = true
        then 1 else 0) := by
  cases op with
  | seg segID => exact seg_count k st.1 segID hfmt
  | boundary bid segID bhrefs =>
    exact boundary_count k st.1 st.2 bid segID bhrefs hfmt hboot
  | clientRender bid d m s =>
    exact clientRender_count k st.1 bid d m s hfmt hfb

theorem runInstrs_mono (k : InstrKind) (ops : List InstrOp)
    (st : ResponseState × Resources) (hk : sentFlag k st.1 = true) :
    sentFlag k (runInstrs st ops).2.1 = true := by
  induction ops generalizing st with
  | nil => exact hk
  | cons op rest ih =>
    exact ih ((runInstr st op).2.1, (runInstr st op).2.2)
      (runInstr_mono k st op hk)

/-- C7: across any sequence of instruction writes in script streaming
format (with bootstrap chunk lists free of helper bodies), the full JS
helper function body of each instruction kind appears in the emitted
stream exactly once when the run flips that kind's `sent*Function` flag
from `false` to `true` — i.e. on the first instruction needing that
helper — and zero times otherwise; in particular a kind whose flag is
already set (every instruction after the first of that kind) emits only
the short invocation, never the body again. -/
theorem c7_instruction_function_bodies_one_shot (k : InstrKind)
    (ops : List InstrOp) (rs : ResponseState) (resources : Resources)
    (hfmt : rs.streamingFormat = ScriptStreamingFormat)
    (hboot : List.count (Chunk.fnBody k) rs.bootstrapChunks = 0)
    (hfb : List.count (Chunk.fnBody k)
      (rs.fallbackBootstrapChunks.getD rs.bootstrapChunks) = 0) :
    bodyCount k (runInstrs (rs, resources) ops).1 =
      (if sentFlag k rs = false ∧
          sentFlag k (runInstrs (rs, resources) ops).2.1 = true
        then 1 else 0) := by
  induction ops generalizing rs resources with
  | nil =>
    simp only [runInstrs, bodyCount, List.count_nil]
    by_cases h : sentFlag k rs = false <;> simp [h]
  | cons op rest ih =>
    have hpres := runInstr_preserves (rs, resources) op
    have hc1 := runInstr_count k (rs, resources) op hfmt hboot hfb
    have hfmt2 : (runInstr (rs, resources) op).2.1.streamingFormat =
        ScriptStreamingFormat := by rw [hpres.1]; exact hfmt
    have hboot2 : List.count (Chunk.fnBody k)
        (runInstr (rs, resources) op).2.1.bootstrapChunks = 0 := by
      rw [hpres.2.1]; exact hboot
    have hfb2 : List.count (Chunk.fnBody k)
        ((runInstr (rs, resources) op).2.1.fallbackBootstrapChunks.getD
          (runInstr (rs, resources) op).2.1.bootstrapChunks) = 0 := by
      rw [hpres.2.2, hpres.2.1]; exact hfb
    have hc2 := ih (runInstr (rs, resources) op).2.1
      (runInstr (rs, resources) op).2.2 hfmt2 hboot2 hfb2
    simp only [runInstrs, bodyCount_append]
    rw [hc1]
    rw [show ((runInstr (rs, resources) op).2.1,
      (runInstr (rs, resources) op).2.2) = (runInstr (rs, resources) op).2
      from rfl] at hc2
    rw [hc2]
    by_cases h0 : sentFlag k rs = false
    · by_cases h1 : sentFlag k (runInstr (rs, resources) op).2.1 = false
      · simp [h0, h1]
      · have h1t : sentFlag k (runInstr (rs, resources) op).2.1 = true := by
          revert h1
          cases sentFlag k (runInstr (rs, resources) op).2.1 <;> simp
        have h2t : sentFlag k (runInstrs (runInstr (rs, resources) op).2
            rest).2.1 = true :=
          runInstrs_mono k rest (runInstr (rs, resources) op).2 h1t
        simp [h0, h1t, h2t]
    · have h0t : sentFlag k rs = true := by
        revert h0
        cases sentFlag k rs <;> simp
      have h1t : sentFlag k (runInstr (rs, resources) op).2.1 = true :=
        runInstr_mono k (rs, resources) op h0t
      simp [h0t, h1t]

end ReactFizz

namespace ReactFizz

theorem c7_instruction_function_bodies_one_shot_witness :
    ({} : ResponseState).streamingFormat = ScriptStreamingFormat ∧
    List.count (Chunk.fnBody InstrKind.completeSegment)
      (({} : ResponseState)).bootstrapChunks = 0 ∧
    bodyCount InstrKind.completeSegment
      (runInstrs ({}, createResources)
        [InstrOp.seg 0, InstrOp.seg 1, InstrOp.seg 2]).1 =
      (if sentFlag InstrKind.completeSegment ({} : ResponseState) = false ∧
          sentFlag InstrKind.completeSegment
            (runInstrs ({}, createResources)
              [InstrOp.seg 0, InstrOp.seg 1, InstrOp.seg 2]).2.1 = true
        then 1 else 0) :=
  ⟨rfl, rfl,
    c7_instruction_function_bodies_one_shot InstrKind.completeSegment
      [InstrOp.seg 0, InstrOp.seg 1, InstrOp.seg 2] {} createResources
      rfl rfl rfl⟩

end ReactFizz

namespace ReactFizz

/-- The chunk that opens a client-render instruction: the `$RX("` script
invocation head or the `data-ri="x"` template head. -/
def clientRenderMarker (c : Chunk) : Bool :=
  c = Chunk.str "$RX(\"" ||
  c = Chunk.str "<template data-ri=\"x\" data-bid=\""

/-- The chunk that opens a completion instruction: the `$RC(` / `$RK(` /
`$RR(...)` script invocation heads or the `data-ri="b"/"c"/"rb"/"rc"`
template heads. -/
def completionMarker (c : Chunk) : Bool :=
  c = Chunk.str "$RC(\"" || c = Chunk.str "$RR($RC,\"" ||
  c = Chunk.str "$RK(\"" || c = Chunk.str "$RR($RK,\"" ||
  c = Chunk.str "<template data-ri=\"b\" data-bid=\"" ||
  c = Chunk.str "<template data-ri=\"c\" data-bid=\"" ||
  c = Chunk.str "<template data-ri=\"rb\" data-bid=\"" ||
  c = Chunk.str "<template data-ri=\"rc\" data-bid=\""

theorem escapeTextForBrowser_no_quote (s : String) :
    Char.ofNat 34 ∉ (escapeTextForBrowser s).toList := by
  intro hmem
  unfold escapeTextForBrowser at hmem
  rw [show (String.mk (s.toList.flatMap (fun c =>
      if c = '&' then "&amp;".toList
      else if c = '<' then "&lt;".toList
      else if c = '>' then "&gt;".toList
      else if c = '"' then "&quot;".toList
      else if c = Char.ofNat 39 then "&#x27;".toList
      else [c]))).toList = s.toList.flatMap (fun c =>
      if c = '&' then "&amp;".toList
      else if c = '<' then "&lt;".toList
      else if c = '>' then "&gt;".toList
      else if c = '"' then "&quot;".toList
      else if c = Char.ofNat 39 then "&#x27;".toList
      else [c]) from rfl] at hmem
  rw [List.mem_flatMap] at hmem
  obtain ⟨c, _, hc⟩ := hmem
  split_ifs at hc with h1 h2 h3 h4 h5
  · exact absurd hc (by decide)
  · exact absurd hc (by decide)
  · exact absurd hc (by decide)
  · exact absurd hc (by decide)
  · exact absurd hc (by decide)
  · simp only [List.mem_singleton] at hc
    exact h4 (by rw [← hc])

theorem escapeJSStrings_head (l : List Char) :
    ∃ r, escapeJSStringsForInstructionScripts l = Char.ofNat 34 :: r := by
  unfold escapeJSStringsForInstructionScripts jsonStringifyString
  refine ⟨(l.flatMap jsonEscapeChar ++
    [Char.ofNat 34]).flatMap instructionStrReplace, ?_⟩
  rw [show (Char.ofNat 34 :: l.flatMap jsonEscapeChar ++
      [Char.ofNat 34]).flatMap instructionStrReplace =
      instructionStrReplace (Char.ofNat 34) ++
        (l.flatMap jsonEscapeChar ++
          [Char.ofNat 34]).flatMap instructionStrReplace from rfl]
  rw [show instructionStrReplace (Char.ofNat 34) =
    [Char.ofNat 34] from by decide]
  rfl

theorem escapedText_not_clientRenderMarker (s : String) :
    clientRenderMarker (Chunk.str (escapeTextForBrowser s)) = false := by
  unfold clientRenderMarker
  have hq := escapeTextForBrowser_no_quote s
  simp only [Bool.or_eq_false_iff, decide_eq_false_iff_not]
  constructor <;> intro h <;> injection h with h <;> rw [h] at hq <;>
    exact hq (by decide)

theorem escapedText_not_completionMarker (s : String) :
    completionMarker (Chunk.str (escapeTextForBrowser s)) = false := by
  unfold completionMarker
  have hq := escapeTextForBrowser_no_quote s
  simp only [Bool.or_eq_false_iff, decide_eq_false_iff_not]
  refine ⟨⟨⟨⟨⟨⟨⟨?_, ?_⟩, ?_⟩, ?_⟩, ?_⟩, ?_⟩, ?_⟩, ?_⟩ <;> intro h <;>
    injection h with h <;> rw [h] at hq <;> exact hq (by decide)

theorem escapedJS_not_clientRenderMarker (l : List Char) :
    clientRenderMarker (Chunk.str (String.mk
      (escapeJSStringsForInstructionScripts l))) = false := by
  unfold clientRenderMarker
  obtain ⟨r, hr⟩ := escapeJSStrings_head l
  rw [hr]
  simp only [Bool.or_eq_false_iff, decide_eq_false_iff_not]
  constructor <;> intro h <;> injection h with h <;>
    exact absurd (congrArg String.toList h) (by intro hx; simp at hx)

theorem escapedJS_not_completionMarker (l : List Char) :
    completionMarker (Chunk.str (String.mk
      (escapeJSStringsForInstructionScripts l))) = false := by
  unfold completionMarker
  obtain ⟨r, hr⟩ := escapeJSStrings_head l
  rw [hr]
  simp only [Bool.or_eq_false_iff, decide_eq_false_iff_not]
  refine ⟨⟨⟨⟨⟨⟨⟨?_, ?_⟩, ?_⟩, ?_⟩, ?_⟩, ?_⟩, ?_⟩, ?_⟩ <;> intro h <;>
    injection h with h <;>
    exact absurd (congrArg String.toList h) (by intro hx; simp at hx)

end ReactFizz

namespace ReactFizz

theorem clientRenderMarker_fnBody (k : InstrKind) :
    clientRenderMarker (Chunk.fnBody k) = false := by
  simp [clientRenderMarker]

theorem completionMarker_fnBody (k : InstrKind) :
    completionMarker (Chunk.fnBody k) = false := by
  simp [completionMarker]

theorem crmEval_rx : clientRenderMarker (Chunk.str "$RX(\"") = true := by
  decide

theorem crmEval_xtpl : clientRenderMarker
    (Chunk.str "<template data-ri=\"x\" data-bid=\"") = true := by decide

theorem cmEval_rx : completionMarker (Chunk.str "$RX(\"") = false := by
  decide

theorem cmEval_xtpl : completionMarker
    (Chunk.str "<template data-ri=\"x\" data-bid=\"") = false := by decide

theorem crmEval_quote : clientRenderMarker (Chunk.str "\"") = false := by
  decide

theorem cmEval_quote : completionMarker (Chunk.str "\"") = false := by
  decide

theorem crmEval_comma : clientRenderMarker (Chunk.str ",") = false := by
  decide

theorem cmEval_comma : completionMarker (Chunk.str ",") = false := by
  decide

theorem crmEval_scriptEnd : clientRenderMarker
    (Chunk.str ")</script>") = false := by decide

theorem cmEval_scriptEnd : completionMarker
    (Chunk.str ")</script>") = false := by decide

theorem crmEval_dgst : clientRenderMarker
    (Chunk.str "\" data-dgst=\"") = false := by decide

theorem cmEval_dgst : completionMarker
    (Chunk.str "\" data-dgst=\"") = false := by decide

theorem crmEval_msg : clientRenderMarker
    (Chunk.str "\" data-msg=\"") = false := by decide

theorem cmEval_msg : completionMarker
    (Chunk.str "\" data-msg=\"") = false := by decide

theorem crmEval_stck : clientRenderMarker
    (Chunk.str "\" data-stck=\"") = false := by decide

theorem cmEval_stck : completionMarker
    (Chunk.str "\" data-stck=\"") = false := by decide

theorem crmEval_tplEnd : clientRenderMarker
    (Chunk.str "\"></template>") = false := by decide

theorem cmEval_tplEnd : completionMarker
    (Chunk.str "\"></template>") = false := by decide

set_option maxHeartbeats 1000000 in
theorem clientRenderW_marker_counts (rs : ResponseState) (t : String)
    (dgst msg stck : Option String)
    (ht1 : clientRenderMarker (Chunk.str t) = false)
    (ht2 : completionMarker (Chunk.str t) = false)
    (hs1 : clientRenderMarker (Chunk.str rs.startInlineScript) = false)
    (hs2 : completionMarker (Chunk.str rs.startInlineScript) = false) :
    List.countP clientRenderMarker
      (writeClientRenderBoundaryInstructionW rs
        (BoundaryIdChunk.assigned t) dgst msg stck).1 = 1 ∧
    List.countP completionMarker
      (writeClientRenderBoundaryInstructionW rs
        (BoundaryIdChunk.assigned t) dgst msg stck).1 = 0 := by
  unfold writeClientRenderBoundaryInstructionW
    writeClientRenderBoundaryInstruction
  dsimp only
  rw [show isContainerBoundary rs (some (BoundaryIdChunk.assigned t)) =
    false from by unfold isContainerBoundary; cases rs.containerBoundaryID
      <;> rfl]
  simp only [Bool.false_eq_true, if_false, Option.getD_some]
  split_ifs <;>
    simp [List.countP_append, List.countP_cons, ht1, ht2, hs1, hs2,
      clientRenderMarker_fnBody, completionMarker_fnBody, crmEval_rx,
      crmEval_xtpl, cmEval_rx, cmEval_xtpl, crmEval_quote, cmEval_quote,
      crmEval_comma, cmEval_comma, crmEval_scriptEnd, cmEval_scriptEnd,
      crmEval_dgst, cmEval_dgst, crmEval_msg, cmEval_msg, crmEval_stck,
      cmEval_stck, crmEval_tplEnd, cmEval_tplEnd,
      escapedJS_not_clientRenderMarker, escapedJS_not_completionMarker,
      escapedText_not_clientRenderMarker, escapedText_not_completionMarker,
      BoundaryIdChunk.text]

end ReactFizz

namespace ReactFizz

theorem clientRenderW_references_id (rs : ResponseState) (t : String)
    (dgst msg stck : Option String) :
    ∃ pre post,
      (writeClientRenderBoundaryInstructionW rs
        (BoundaryIdChunk.assigned t) dgst msg stck).1 =
      pre ++ Chunk.str (if rs.streamingFormat = ScriptStreamingFormat
          then "$RX(\"" else "<template data-ri=\"x\" data-bid=\"") ::
        Chunk.str t :: post := by
  unfold writeClientRenderBoundaryInstructionW
    writeClientRenderBoundaryInstruction
  dsimp only
  rw [show isContainerBoundary rs (some (BoundaryIdChunk.assigned t)) =
    false from by unfold isContainerBoundary; cases rs.containerBoundaryID
      <;> rfl]
  simp only [Bool.false_eq_true, if_false, Option.getD_some]
  by_cases hf : rs.streamingFormat = ScriptStreamingFormat
  · by_cases hflag : rs.sentClientRenderFunction = false
    · refine ⟨[Chunk.str rs.startInlineScript,
        Chunk.fnBody InstrKind.clientRender], ?_, ?_⟩
      · exact Chunk.str "\"" ::
          ((if jsTruthy dgst || jsTruthy msg || jsTruthy stck then
            [Chunk.str ",", Chunk.str (String.mk
              (escapeJSStringsForInstructionScripts
                (dgst.getD "").toList))] else []) ++
          (if jsTruthy msg || jsTruthy stck then
            [Chunk.str ",", Chunk.str (String.mk
              (escapeJSStringsForInstructionScripts
                (msg.getD "").toList))] else []) ++
          (if jsTruthy stck then
            [Chunk.str ",", Chunk.str (String.mk
              (escapeJSStringsForInstructionScripts
                (stck.getD "").toList))] else []) ++
          [Chunk.str ")</script>"])
      · simp [hf, hflag, BoundaryIdChunk.text]
    · refine ⟨[Chunk.str rs.startInlineScript], ?_, ?_⟩
      · exact Chunk.str "\"" ::
          ((if jsTruthy dgst || jsTruthy msg || jsTruthy stck then
            [Chunk.str ",", Chunk.str (String.mk
              (escapeJSStringsForInstructionScripts
                (dgst.getD "").toList))] else []) ++
          (if jsTruthy msg || jsTruthy stck then
            [Chunk.str ",", Chunk.str (String.mk
              (escapeJSStringsForInstructionScripts
                (msg.getD "").toList))] else []) ++
          (if jsTruthy stck then
            [Chunk.str ",", Chunk.str (String.mk
              (escapeJSStringsForInstructionScripts
                (stck.getD "").toList))] else []) ++
          [Chunk.str ")</script>"])
      · simp [hf, hflag, BoundaryIdChunk.text]
  · refine ⟨[], ?_, ?_⟩
    · exact ((if jsTruthy dgst || jsTruthy msg || jsTruthy stck then
          [Chunk.str "\" data-dgst=\"",
            Chunk.str (escapeTextForBrowser (dgst.getD ""))] else []) ++
        (if jsTruthy msg || jsTruthy stck then
          [Chunk.str "\" data-msg=\"",
            Chunk.str (escapeTextForBrowser (msg.getD ""))] else []) ++
        (if jsTruthy stck then
          [Chunk.str "\" data-stck=\"",
            Chunk.str (escapeTextForBrowser (stck.getD ""))] else []) ++
        [Chunk.str "\"></template>"])
    · simp [hf, BoundaryIdChunk.text]

theorem startClientRendered_marker_counts (rs : ResponseState)
    (dgst msg stck : Option String) :
    List.countP clientRenderMarker
      (writeStartClientRenderedSuspenseBoundary rs dgst msg stck) = 0 ∧
    List.countP completionMarker
      (writeStartClientRenderedSuspenseBoundary rs dgst msg stck) = 0 := by
  unfold writeStartClientRenderedSuspenseBoundary
  split_ifs <;>
    simp [List.countP_append, List.countP_cons,
      escapedText_not_clientRenderMarker, escapedText_not_completionMarker,
      show clientRenderMarker (Chunk.str "<!--$!-->") = false from by decide,
      show completionMarker (Chunk.str "<!--$!-->") = false from by decide,
      show clientRenderMarker (Chunk.str "<template") = false from by decide,
      show completionMarker (Chunk.str "<template") = false from by decide,
      show clientRenderMarker (Chunk.str " data-dgst=\"") = false from by
        decide,
      show completionMarker (Chunk.str " data-dgst=\"") = false from by
        decide,
      crmEval_quote, cmEval_quote,
      show clientRenderMarker (Chunk.str "></template>") = false from by
        decide,
      show completionMarker (Chunk.str "></template>") = false from by
        decide]

end ReactFizz

namespace ReactFizz

/-- Modelled from the spec: the stream contribution of a suspense boundary
that errors after its pending placeholder was emitted (the orchestration —
`ReactFizzServer`'s errored-boundary flush calling the client-rendered
boundary writers and then the client-render instruction — is not under
`src/`): the fallback content is wrapped in the client-rendered boundary
start/end markers and followed by the boundary's client-render
instruction. -/
def erroredBoundaryFlush (rs : ResponseState) (bid : BoundaryIdChunk)
    (fallbackContent : List Chunk) (dgst msg stck : Option String) :
    List Chunk × ResponseState :=
  let w := writeClientRenderBoundaryInstructionW rs bid dgst msg stck
  (writeStartClientRenderedSuspenseBoundary rs dgst msg stck ++
    fallbackContent ++ writeEndClientRenderedSuspenseBoundary ++ w.1,
    w.2)

/-- C6: a boundary that errors after emitting its placeholder contributes
its fallback wrapped in the client-rendered markers (`<!--$!-->` start,
closing boundary comment), plus exactly one client-render instruction —
`$RX("` in script streaming format, the `data-ri="x"` template head in
data format — immediately followed by the boundary's assigned id, and
never any completion (`$RC` / `$RK` / `$RR` / `data-ri="b"/"c"/"rb"/"rc"`)
instruction, provided the fallback content, the boundary id text and the
inline-script open tag are not themselves instruction-head chunks. -/
theorem c6_errored_boundary_client_render (rs : ResponseState)
    (t : String) (fallbackContent : List Chunk)
    (dgst msg stck : Option String)
    (hfb1 : List.countP clientRenderMarker fallbackContent = 0)
    (hfb2 : List.countP completionMarker fallbackContent = 0)
    (ht1 : clientRenderMarker (Chunk.str t) = false)
    (ht2 : completionMarker (Chunk.str t) = false)
    (hs1 : clientRenderMarker (Chunk.str rs.startInlineScript) = false)
    (hs2 : completionMarker (Chunk.str rs.startInlineScript) = false) :
    (erroredBoundaryFlush rs (BoundaryIdChunk.assigned t) fallbackContent
        dgst msg stck).1 =
      writeStartClientRenderedSuspenseBoundary rs dgst msg stck ++
        fallbackContent ++ writeEndClientRenderedSuspenseBoundary ++
        (writeClientRenderBoundaryInstructionW rs
          (BoundaryIdChunk.assigned t) dgst msg stck).1 ∧
    (writeStartClientRenderedSuspenseBoundary rs dgst msg
        stck).head? = some (Chunk.str "<!--$!-->") ∧
    writeEndClientRenderedSuspenseBoundary = [Chunk.str "<!--/$-->"] ∧
    List.countP clientRenderMarker
      (erroredBoundaryFlush rs (BoundaryIdChunk.assigned t)
        fallbackContent dgst msg stck).1 = 1 ∧
    List.countP completionMarker
      (erroredBoundaryFlush rs (BoundaryIdChunk.assigned t)
        fallbackContent dgst msg stck).1 = 0 ∧
    ∃ pre post,
      (erroredBoundaryFlush rs (BoundaryIdChunk.assigned t)
        fallbackContent dgst msg stck).1 =
      pre ++ Chunk.str (if rs.streamingFormat = ScriptStreamingFormat
          then "$RX(\"" else "<template data-ri=\"x\" data-bid=\"") ::
        Chunk.str t :: post := by
  have hw := clientRenderW_marker_counts rs t dgst msg stck ht1 ht2 hs1 hs2
  have hst := startClientRendered_marker_counts rs dgst msg stck
  refine ⟨rfl, ?_, rfl, ?_, ?_, ?_⟩
  · unfold writeStartClientRenderedSuspenseBoundary
    split_ifs <;> rfl
  · unfold erroredBoundaryFlush
    dsimp only
    simp [List.countP_append, hw.1, hst.1, hfb1,
      writeEndClientRenderedSuspenseBoundary,
      show clientRenderMarker (Chunk.str "<!--/$-->") = false from by
        decide]
  · unfold erroredBoundaryFlush
    dsimp only
    simp [List.countP_append, hw.2, hst.2, hfb2,
      writeEndClientRenderedSuspenseBoundary,
      show completionMarker (Chunk.str "<!--/$-->") = false from by
        decide]
  · obtain ⟨pre, post, h⟩ := clientRenderW_references_id rs t dgst msg stck
    refine ⟨writeStartClientRenderedSuspenseBoundary rs dgst msg stck ++
      fallbackContent ++ writeEndClientRenderedSuspenseBoundary ++ pre,
      post, ?_⟩
    unfold erroredBoundaryFlush
    dsimp only
    rw [h]
    simp [List.append_assoc]

theorem c6_errored_boundary_client_render_witness :
    List.countP clientRenderMarker ([] : List Chunk) = 0 ∧
    clientRenderMarker (Chunk.str "B:0") = false ∧
    List.countP clientRenderMarker
      (erroredBoundaryFlush {} (BoundaryIdChunk.assigned "B:0") []
        (some "NotFound") none none).1 = 1 ∧
    List.countP completionMarker
      (erroredBoundaryFlush {} (BoundaryIdChunk.assigned "B:0") []
        (some "NotFound") none none).1 = 0 :=
  ⟨rfl, by decide,
    (c6_errored_boundary_client_render {} "B:0" [] (some "NotFound") none
      none rfl rfl (by decide) (by decide) (by decide)
      (by decide)).2.2.2.1,
    (c6_errored_boundary_client_render {} "B:0" [] (some "NotFound") none
      none rfl rfl (by decide) (by decide) (by decide)
      (by decide)).2.2.2.2.1⟩

end ReactFizz
